import Mathlib

/-!
# Verification of the ArtElouarate backend mock server

This file gives a shallow embedding, in Lean 4, of the in-memory ("mock")
HTTP handlers of `backend/server.js`.  The repository file contains two
rewritten copies of the server:

* "variant 1": the copy starting near the top of the file
  (`formatResponse` at line 185, routes at lines 313-834), and
* "variant 2": the second copy (`formatResponse` at line 1078, routes at
  lines 1243-2051).

Both variants operate on in-memory arrays `categories`, `artworks`,
`admins`.  Handlers are embedded as pure functions from a `ServerState`
(the arrays) and the request data to an HTTP response and a new
`ServerState`.  JavaScript-specific behaviour is modelled explicitly:

* `parseInt` is modelled by `jsParseInt : String → Option Int`, where
  `none` stands for `NaN`; an `x === parseInt(id)` comparison on a stored
  finite id is `idEq`, which is false for `NaN`.
* `Array.prototype.slice` is `jsSlice` (ECMAScript clamping semantics);
  the `ToIntegerOrInfinity` coercion applied by `slice` maps `NaN` to `0`
  (`toIntOrZero`).
* `Array.prototype.sort` (stable since ES2019) with a key comparator is
  modelled by Mathlib's `List.insertionSort`, which produces the same
  stable result: sorted by the key, ties kept in original order.
* `String.prototype.trim` / `toLowerCase` are `jsTrim` / `jsToLower`
  (character-wise; faithful on the ASCII data the server holds).
* Truthiness tests (`if (name)`, `color || d`, `error && {error}`) are
  modelled per type: a string is truthy iff nonempty, a number iff
  nonzero, objects are always truthy; absent/`null`/`undefined` values
  are `Option.none`.
* Mutation of a found array element (`artwork.viewCount += 1`,
  `admin.lastLogin = ...`) is modelled by `jsFindReplace`, which replaces
  the first element satisfying the predicate; `Array.splice(i, 1)` after
  `findIndex` is `jsFindRemove`.

Timestamps (`new Date().toISOString()`) are modelled by a `now : Nat`
parameter threaded into every handler; `Date.now()` token suffixes use
the same clock value.
-/

/-- Model of `String.prototype.toLowerCase` (character-wise). -/
def jsToLower (s : String) : String := ⟨s.data.map Char.toLower⟩

/-- Model of `String.prototype.trim`: strip whitespace from both ends. -/
def jsTrim (s : String) : String :=
  ⟨((s.data.dropWhile Char.isWhitespace).reverse.dropWhile Char.isWhitespace).reverse⟩

/-- Decimal value of a list of digit characters. -/
def digitsVal (l : List Char) : Nat :=
  l.foldl (fun n c => n * 10 + (c.toNat - 48)) 0

/-- A hex digit, as accepted by `parseInt`'s hex-prefix path and by the
`[0-9A-F]` color regex with the `i` flag. -/
def isHexDigitChar (c : Char) : Bool :=
  c.isDigit || (('a' ≤ c.toLower) && (c.toLower ≤ 'f'))

/-- Numeric value of a hex digit character. -/
def hexDigitVal (c : Char) : Nat :=
  if c.isDigit then c.toNat - 48
  else if 'a' ≤ c then c.toNat - 87
  else c.toNat - 55

/-- Hexadecimal value of a list of hex digit characters. -/
def hexDigitsVal (l : List Char) : Nat :=
  l.foldl (fun n c => n * 16 + hexDigitVal c) 0

/-- Model of JavaScript `parseInt(s)` called with no radix argument, as
the source always does: skip leading whitespace, take an optional sign,
then — per ECMAScript radix detection — a `0x`/`0X` prefix switches to
the longest run of hexadecimal digits (so `parseInt("0x1") = 1`), and
otherwise the longest run of decimal digits is taken; `none` models
`NaN` (no digits after the optional sign and prefix). -/
def jsParseInt (s : String) : Option Int :=
  let cs := s.data.dropWhile Char.isWhitespace
  let signDigits : Bool × List Char :=
    match cs with
    | '-' :: rest => (true, rest)
    | '+' :: rest => (false, rest)
    | rest => (false, rest)
  let magnitude : Option Nat :=
    match signDigits.2 with
    | '0' :: x :: rest =>
      if x = 'x' ∨ x = 'X' then
        let hexDigits := rest.takeWhile isHexDigitChar
        if hexDigits.isEmpty then none else some (hexDigitsVal hexDigits)
      else
        let digits := ('0' :: x :: rest).takeWhile Char.isDigit
        if digits.isEmpty then none else some (digitsVal digits)
    | l =>
      let digits := l.takeWhile Char.isDigit
      if digits.isEmpty then none else some (digitsVal digits)
  magnitude.map (fun m => if signDigits.1 then -(m : Int) else (m : Int))

/-- `stored === parsed` where `parsed` is a `parseInt` result: strict equality
of a finite stored id with the parsed number; always false against `NaN`. -/
def idEq (stored : Int) (parsed : Option Int) : Bool :=
  match parsed with
  | some n => stored = n
  | none => false

/-- JavaScript string truthiness: `undefined`/`null`/`""` are falsy. -/
def optTruthy (o : Option String) : Bool :=
  match o with
  | some s => s ≠ ""
  | none => false

/-- `v || d` for an optional string value: the string if truthy, else `d`. -/
def jsOrStr (v : Option String) (d : String) : String :=
  match v with
  | some s => if s ≠ "" then s else d
  | none => d

/-- `hay.includes(needle)` on strings. -/
def strIncludes (hay needle : String) : Bool :=
  hay.data.tails.any (fun t => needle.data.isPrefixOf t)

/-- `ToIntegerOrInfinity` as applied by `Array.prototype.slice`:
`NaN` (here `none`) coerces to `0`. -/
def toIntOrZero (o : Option Int) : Int :=
  match o with
  | some n => n
  | none => 0

/-- Addition on JS numbers that may be `NaN` (`none`): `NaN` propagates. -/
def jsAddNum (a b : Option Int) : Option Int :=
  match a, b with
  | some x, some y => some (x + y)
  | _, _ => none

/-- `a < b` on a JS number that may be `NaN`: any comparison with `NaN`
is false. -/
def jsLtNum (a : Option Int) (b : Int) : Bool :=
  match a with
  | some x => x < b
  | none => false

/-- `Math.floor(a / b)` on finite ints; `none` models the `NaN`/`Infinity`
results of dividing by zero. -/
def jsFloorDiv (a b : Int) : Option Int :=
  if b = 0 then none else some (Int.fdiv a b)

/-- `Math.ceil(a / b)` on finite ints; `none` for division by zero. -/
def jsCeilDiv (a b : Int) : Option Int :=
  if b = 0 then none else some (-(Int.fdiv (-a) b))

/-- ECMAScript `Array.prototype.slice(b, e)`: negative indices count from
the end, both indices are clamped to `[0, length]`. -/
def jsSlice {α : Type} (l : List α) (b e : Int) : List α :=
  let n : Int := l.length
  let bc : Int := if b < 0 then max (n + b) 0 else min b n
  let ec : Int := if e < 0 then max (n + e) 0 else min e n
  (l.drop bc.toNat).take (ec.toNat - bc.toNat)

/-- `list.find(p)` followed by in-place mutation of the found element:
returns the updated list together with the updated element, or `none`
when no element matches (the JS `find` returned `undefined`). -/
def jsFindReplace {α : Type} (p : α → Bool) (f : α → α) : List α → Option (List α × α)
  | [] => none
  | x :: xs =>
    if p x then some (f x :: xs, f x)
    else (jsFindReplace p f xs).map (fun r => (x :: r.1, r.2))

/-- `list.findIndex(p)` followed by `list.splice(index, 1)`: returns the
list without the first matching element, together with that element, or
`none` when `findIndex` returned `-1`. -/
def jsFindRemove {α : Type} (p : α → Bool) : List α → Option (List α × α)
  | [] => none
  | x :: xs =>
    if p x then some (xs, x)
    else (jsFindRemove p xs).map (fun r => (x :: r.1, r.2))

/-- The color regex `^#[0-9A-F]{6}$/i`. -/
def isHexColor (s : String) : Bool :=
  match s.data with
  | '#' :: rest => rest.length = 6 && rest.all isHexDigitChar
  | _ => false

/-- The `error` argument of `formatResponse`: either a plain string code, or
the `{type: 'VALIDATION_ERROR', details}` object built by `validateRequest`
(variant 1), carrying the failed validators' messages. -/
inductive ErrVal where
  | code (c : String)
  | validationDetails (msgs : List String)
deriving DecidableEq, Repr

/-- JS truthiness of an `error` argument: the empty string is falsy,
every object is truthy. -/
def errTruthy : ErrVal → Bool
  | .code c => c ≠ ""
  | .validationDetails _ => true

/-- The uniform response envelope `{success, message, timestamp, data?,
error?}`.  `data`/`error` are `Option`s: `none` means the field is absent
from the serialized object. -/
structure Envelope (α : Type) where
  success : Bool
  message : String
  timestamp : Nat
  data : Option α
  error : Option ErrVal
deriving DecidableEq, Repr

/-- `formatResponse(success, data, message, error)` from
`backend/server.js` lines 185-192 and 1078-1084 (and
`backend/routes/admin.js` lines 32-46): builds the envelope, spreading
`data` only when truthy (every supplied `data` is an object, hence truthy
iff non-`null`) and `error` only when truthy.  The `timestamp` is the
server clock reading `now`.  Variant 1's trailing `meta` parameter
defaults to `{}` and is dropped at every call the claims cover, so it is
not modelled. -/
def formatResponse {α : Type} (success : Bool) (data : Option α) (message : String)
    (error : Option ErrVal) (now : Nat) : Envelope α :=
  { success := success
    message := message
    timestamp := now
    data := data
    error := error.filter errTruthy }

/-- An HTTP response: status code plus the JSON envelope body. -/
structure HttpResponse (α : Type) where
  status : Nat
  body : Envelope α
deriving DecidableEq, Repr

/-- A category record of the mock store.  `artworkCount` is the static
count field stored by variant 2's seed data and create handler (`none`
when the record has no such field, as in variant 1). -/
structure Category where
  id : Int
  name : String
  description : String
  color : String
  isActive : Bool
  sortOrder : Int
  createdAt : Nat
  updatedAt : Option Nat := none
  artworkCount : Option Nat := none
deriving DecidableEq, Repr

/-- An artwork record of the mock store.  Variant 1 stores an `images`
array, variant 2 a single `image` URL; the unused field of either variant
stays at its default. -/
structure Artwork where
  id : Int
  name : String
  description : String
  price : Rat
  originalPrice : Option Rat := none
  medium : String := ""
  dimensions : String := ""
  year : Option Int := none
  status : String
  isActive : Bool
  isFeatured : Bool
  categoryId : Int
  image : String := ""
  images : List String := []
  viewCount : Int
  createdAt : Nat
  updatedAt : Option Nat := none
deriving DecidableEq, Repr

/-- An admin record of the mock `admins` array. -/
structure Admin where
  id : Int
  username : String
  email : String
  passwordHash : String
  isActive : Bool
  role : String
  createdAt : Nat
  lastLogin : Option Nat := none
deriving DecidableEq, Repr

/-- The mock in-memory database: the `categories`, `artworks` and `admins`
arrays. -/
structure ServerState where
  categories : List Category
  artworks : List Artwork
  admins : List Admin
deriving DecidableEq, Repr

-- ===========================================================================
-- Response payload shapes
-- ===========================================================================

/-- Payload of `GET /api/categories`: `{categories, total}`. -/
structure CatListPayload where
  categories : List Category
  total : Nat
deriving DecidableEq, Repr

/-- Payload wrapping a single category: `{category}`. -/
structure CatPayload where
  category : Category
deriving DecidableEq, Repr

/-- Pagination object of variant 1's `GET /api/artworks`.  `limit` and
`offset` are the raw `parseInt` results (`none` models `NaN`). -/
structure PaginationV1 where
  total : Nat
  limit : Option Int
  offset : Option Int
  hasMore : Bool
deriving DecidableEq, Repr

/-- Pagination object of variant 2's `GET /api/artworks`; `page` and
`totalPages` are `none` when the JS computation yields `NaN`/`Infinity`. -/
structure PaginationV2 where
  total : Nat
  limit : Option Int
  offset : Option Int
  hasMore : Bool
  page : Option Int
  totalPages : Option Int
deriving DecidableEq, Repr

/-- Payload of variant 1's `GET /api/artworks`. -/
structure ArtListPayloadV1 where
  artworks : List Artwork
  pagination : PaginationV1
deriving DecidableEq, Repr

/-- An artwork spread together with a joined `category` field (variant 2);
`none` models the `undefined` result of a failed `find`, dropped by JSON
serialization. -/
structure ArtWithCategory where
  artwork : Artwork
  category : Option Category
deriving DecidableEq, Repr

/-- Payload of variant 2's `GET /api/artworks`. -/
structure ArtListPayloadV2 where
  artworks : List ArtWithCategory
  pagination : PaginationV2
deriving DecidableEq, Repr

/-- Payload wrapping a plain artwork record: `{artwork}`. -/
structure ArtPayload where
  artwork : Artwork
deriving DecidableEq, Repr

/-- Payload of variant 2's `GET /api/artworks/:id`: the artwork with its
joined category. -/
structure ArtPayloadV2 where
  artwork : ArtWithCategory
deriving DecidableEq, Repr

/-- The admin profile object returned by variant 1's login. -/
structure AdminProfileV1 where
  id : Int
  username : String
  email : String
  role : String
  isActive : Bool
  createdAt : Nat
deriving DecidableEq, Repr

/-- The admin profile object returned by variant 2's login (adds
`lastLogin`). -/
structure AdminProfileV2 where
  id : Int
  username : String
  email : String
  role : String
  isActive : Bool
  createdAt : Nat
  lastLogin : Option Nat
deriving DecidableEq, Repr

/-- The `{accessToken, refreshToken}` pair. -/
structure Tokens where
  accessToken : String
  refreshToken : String
deriving DecidableEq, Repr

/-- Payload of variant 1's `POST /api/admin/login`. -/
structure AdminLoginPayloadV1 where
  admin : AdminProfileV1
  tokens : Tokens
deriving DecidableEq, Repr

/-- Payload of variant 2's `POST /api/admin/login`. -/
structure AdminLoginPayloadV2 where
  admin : AdminProfileV2
  tokens : Tokens
deriving DecidableEq, Repr

-- ===========================================================================
-- Request bodies and query strings
-- ===========================================================================

/-- Body of the category create endpoints; `none` = field absent. -/
structure CategoryBody where
  name : Option String := none
  description : Option String := none
  color : Option String := none
deriving DecidableEq, Repr

/-- Body of the category update endpoints; `none` = field absent. -/
structure UpdateCategoryBody where
  name : Option String := none
  description : Option String := none
  color : Option String := none
  isActive : Option Bool := none
deriving DecidableEq, Repr

/-- Body of the artwork create/update endpoints; `none` = field absent.
`originalPrice` distinguishes absent (`none`) from supplied-`null`
(`some none`), which variant 2's update treats differently.  Numeric
fields are the JSON numbers of the request (`parseInt`/`parseFloat` of a
number is the number itself). -/
structure ArtworkBody where
  name : Option String := none
  description : Option String := none
  price : Option Rat := none
  originalPrice : Option (Option Rat) := none
  medium : Option String := none
  dimensions : Option String := none
  year : Option Int := none
  categoryId : Option Int := none
  image : Option String := none
  images : Option (List String) := none
  status : Option String := none
  isFeatured : Option Bool := none
  isActive : Option Bool := none
deriving DecidableEq, Repr

/-- Body of `POST /api/admin/login`. -/
structure LoginBody where
  email : Option String := none
  password : Option String := none
deriving DecidableEq, Repr

/-- Query string of `GET /api/artworks`; `none` = parameter absent. -/
structure ArtworksQuery where
  category : Option String := none
  status : Option String := none
  featured : Option String := none
  limit : Option String := none
  offset : Option String := none
  search : Option String := none
  sort : Option String := none
deriving DecidableEq, Repr

/-- A destructuring default `d` followed by `parseInt`: an absent query
parameter defaults to the number `d` (and `parseInt` of that number is
`d`); a supplied string is parsed, possibly to `NaN` (`none`). -/
def parsedOr (d : Int) (o : Option String) : Option Int :=
  match o with
  | none => some d
  | some s => jsParseInt s

/-- JS truthiness of an optional number (`0` and `NaN`-free model:
absent and `0` are falsy). -/
def ratTruthy (o : Option Rat) : Bool :=
  match o with
  | some p => p ≠ 0
  | none => false

/-- JS truthiness of an optional integer. -/
def intTruthy (o : Option Int) : Bool :=
  match o with
  | some n => n ≠ 0
  | none => false

/-- `v ? parseFloat(v) : null` for an optional, nullable number field. -/
def jsOrNullRat (v : Option (Option Rat)) : Option Rat :=
  match v with
  | some (some x) => if x ≠ 0 then some x else none
  | _ => none

/-- `Math.max(...ids) + 1` (variant 1, no extra `0` argument).  On the
empty array JavaScript would give `-Infinity`; the seeded stores are
nonempty and the theorems relying on freshness of the id assume a
nonempty store, so the `[]` case (here `0`) is never exercised. -/
def v1NextId (ids : List Int) : Int :=
  match ids with
  | [] => 0
  | x :: xs => xs.foldl max x + 1

/-- `Math.max(...ids, 0) + 1` (variant 2). -/
def v2NextId (ids : List Int) : Int :=
  ids.foldl max 0 + 1

/-- Stable sort by `sortOrder`: models
`sort((a, b) => a.sortOrder - b.sortOrder)` (ES2019 sort is stable, and a
stable sort by a total key comparator is uniquely determined, so
insertion sort produces the same list). -/
def sortByOrder (l : List Category) : List Category :=
  l.insertionSort (fun a b => a.sortOrder ≤ b.sortOrder)

/-- `artwork.viewCount = (artwork.viewCount || 0) + 1`: every stored
record carries an integer `viewCount`, on which `|| 0` is the identity
except at `0`, where both sides are `0`. -/
def bumpView (a : Artwork) : Artwork :=
  { a with viewCount := a.viewCount + 1 }

-- ===========================================================================
-- Variant 1 handlers (server.js lines 313-834)
-- ===========================================================================

namespace V1

/-- The `validateRequest` rules of `POST /api/categories` (lines 485-489):
the `trim` sanitizer is applied to `name` before the length check; the
returned list holds the messages of the failed validators (empty = valid). -/
def validateCategoryCreate (b : CategoryBody) : List String :=
  (match b.name with
   | some s =>
     if 1 ≤ (jsTrim s).length && (jsTrim s).length ≤ 100 then []
     else ["Name is required (1-100 characters)"]
   | none => ["Name is required (1-100 characters)"]) ++
  (match b.description with
   | some d => if d.length ≤ 500 then [] else ["Description too long (max 500 characters)"]
   | none => []) ++
  (match b.color with
   | some c => if isHexColor c then [] else ["Invalid color format"]
   | none => [])

/-- The `validateRequest` rules of `PUT /api/categories/:id` (lines
526-530); all fields optional, default express-validator message. -/
def validateCategoryUpdate (b : UpdateCategoryBody) : List String :=
  (match b.name with
   | some s => if 1 ≤ (jsTrim s).length && (jsTrim s).length ≤ 100 then [] else ["Invalid value"]
   | none => []) ++
  (match b.description with
   | some d => if d.length ≤ 500 then [] else ["Invalid value"]
   | none => []) ++
  (match b.color with
   | some c => if isHexColor c then [] else ["Invalid value"]
   | none => [])

/-- The `validateRequest` rules of `POST /api/artworks` (lines 672-677). -/
def validateArtworkCreate (b : ArtworkBody) : List String :=
  (match b.name with
   | some s => if 1 ≤ (jsTrim s).length && (jsTrim s).length ≤ 200 then [] else ["Name is required"]
   | none => ["Name is required"]) ++
  (match b.description with
   | some d => if d.length ≤ 1000 then [] else ["Invalid value"]
   | none => []) ++
  (match b.price with
   | some p => if 0 ≤ p then [] else ["Price must be a positive number"]
   | none => ["Price must be a positive number"]) ++
  (match b.categoryId with
   | some c => if 1 ≤ c then [] else ["Valid category is required"]
   | none => ["Valid category is required"])

/-- `GET /api/categories` (lines 446-460): active categories sorted by
`sortOrder`. -/
def getCategories (now : Nat) (s : ServerState) : HttpResponse CatListPayload :=
  let activeCategories := sortByOrder (s.categories.filter (fun c => c.isActive))
  ⟨200, formatResponse true (some ⟨activeCategories, activeCategories.length⟩)
    "Categories retrieved successfully" none now⟩

/-- `GET /api/categories/:id` (lines 463-481). -/
def getCategory (idStr : String) (now : Nat) (s : ServerState) : HttpResponse CatPayload :=
  let parsed := jsParseInt idStr
  match s.categories.find? (fun c => idEq c.id parsed && c.isActive) with
  | none =>
    ⟨404, formatResponse false none "Category not found" (some (.code "CATEGORY_NOT_FOUND")) now⟩
  | some c =>
    ⟨200, formatResponse true (some ⟨c⟩) "Category retrieved successfully" none now⟩

/-- `POST /api/categories` (lines 484-522).  After the validator's `trim`
sanitizer the body `name` is trimmed; the duplicate check runs over all
categories (active or not), case-insensitively. -/
def createCategory (b : CategoryBody) (now : Nat) (s : ServerState) :
    HttpResponse CatPayload × ServerState :=
  let errs := validateCategoryCreate b
  if errs.isEmpty then
    let name := jsTrim (b.name.getD "")
    if (s.categories.find? (fun c => jsToLower c.name = jsToLower name)).isSome then
      (⟨409, formatResponse false none "Category already exists" (some (.code "CATEGORY_EXISTS")) now⟩, s)
    else
      let newCategory : Category := {
        id := v1NextId (s.categories.map (fun c => c.id))
        name := jsTrim name
        description := jsOrStr (b.description.map jsTrim) ""
        color := b.color.getD "#6366f1"
        isActive := true
        sortOrder := s.categories.length + 1
        createdAt := now }
      (⟨201, formatResponse true (some ⟨newCategory⟩) "Category created successfully" none now⟩,
       { s with categories := s.categories ++ [newCategory] })
  else
    (⟨400, formatResponse false none "Validation failed" (some (.validationDetails errs)) now⟩, s)

/-- The object spread `{...categories[categoryIndex], ...req.body,
updatedAt}` of `PUT /api/categories/:id`: supplied fields replace stored
ones (the validator's `trim` sanitizer applies to a supplied `name`). -/
def mergeCategory (old : Category) (b : UpdateCategoryBody) (now : Nat) : Category :=
  { old with
    name := (b.name.map jsTrim).getD old.name
    description := b.description.getD old.description
    color := b.color.getD old.color
    isActive := b.isActive.getD old.isActive
    updatedAt := some now }

/-- `PUT /api/categories/:id` (lines 525-559).  Note: no name-collision
check. -/
def updateCategory (idStr : String) (b : UpdateCategoryBody) (now : Nat) (s : ServerState) :
    HttpResponse CatPayload × ServerState :=
  let errs := validateCategoryUpdate b
  if errs.isEmpty then
    let parsed := jsParseInt idStr
    match jsFindReplace (fun c => idEq c.id parsed) (fun old => mergeCategory old b now)
        s.categories with
    | none =>
      (⟨404, formatResponse false none "Category not found" (some (.code "CATEGORY_NOT_FOUND")) now⟩, s)
    | some (cs, merged) =>
      (⟨200, formatResponse true (some ⟨merged⟩) "Category updated successfully" none now⟩,
       { s with categories := cs })
  else
    (⟨400, formatResponse false none "Validation failed" (some (.validationDetails errs)) now⟩, s)

/-- `DELETE /api/categories/:id` (lines 562-583).  Note: deletes the found
category unconditionally (no check for referencing artworks); the success
response carries no `data`. -/
def deleteCategory (idStr : String) (now : Nat) (s : ServerState) :
    HttpResponse CatPayload × ServerState :=
  match jsFindRemove (fun c => idEq c.id (jsParseInt idStr)) s.categories with
  | none =>
    (⟨404, formatResponse false none "Category not found" (some (.code "CATEGORY_NOT_FOUND")) now⟩, s)
  | some (cs, _) =>
    (⟨200, formatResponse true none "Category deleted successfully" none now⟩,
     { s with categories := cs })

/-- The filter chain of `GET /api/artworks` (lines 602-624): `isActive`,
then optional `category` (by `parseInt`), `status` (default `AVAILABLE`,
`ALL` disables), `featured === 'true'`, and case-insensitive substring
`search` over name, description and medium. -/
def filterArtworks (q : ArtworksQuery) (s : ServerState) : List Artwork :=
  let l0 := s.artworks.filter (fun a => a.isActive)
  let l1 :=
    match q.category with
    | some c => if c ≠ "" then l0.filter (fun a => idEq a.categoryId (jsParseInt c)) else l0
    | none => l0
  let st := q.status.getD "AVAILABLE"
  let l2 := if st ≠ "" && st ≠ "ALL" then l1.filter (fun a => a.status = st) else l1
  let l3 := if q.featured = some "true" then l2.filter (fun a => a.isFeatured) else l2
  match q.search with
  | some sr =>
    if sr ≠ "" then
      l3.filter (fun a =>
        strIncludes (jsToLower a.name) (jsToLower sr) ||
        strIncludes (jsToLower a.description) (jsToLower sr) ||
        strIncludes (jsToLower a.medium) (jsToLower sr))
    else l3
  | none => l3

/-- `GET /api/artworks` (lines 590-644): filter, then paginate with
`slice(parseInt(offset), parseInt(offset) + parseInt(limit))`. -/
def getArtworks (q : ArtworksQuery) (now : Nat) (s : ServerState) :
    HttpResponse ArtListPayloadV1 :=
  let filteredArtworks := filterArtworks q s
  let lim := parsedOr 50 q.limit
  let off := parsedOr 0 q.offset
  let total := filteredArtworks.length
  let paginatedArtworks :=
    jsSlice filteredArtworks (toIntOrZero off) (toIntOrZero (jsAddNum off lim))
  ⟨200, formatResponse true
    (some ⟨paginatedArtworks, ⟨total, lim, off, jsLtNum (jsAddNum off lim) total⟩⟩)
    "Artworks retrieved successfully" none now⟩

/-- `GET /api/artworks/:id` (lines 647-668): find the active artwork,
increment its stored `viewCount` in place, return it. -/
def getArtwork (idStr : String) (now : Nat) (s : ServerState) :
    HttpResponse ArtPayload × ServerState :=
  let parsed := jsParseInt idStr
  match jsFindReplace (fun a => idEq a.id parsed && a.isActive) bumpView s.artworks with
  | none =>
    (⟨404, formatResponse false none "Artwork not found" (some (.code "ARTWORK_NOT_FOUND")) now⟩, s)
  | some (arts, a) =>
    (⟨200, formatResponse true (some ⟨a⟩) "Artwork retrieved successfully" none now⟩,
     { s with artworks := arts })

/-- `POST /api/artworks` (lines 671-712).  The category existence check is
a strict `===` against the raw body `categoryId` and ignores `isActive`;
the new record spreads the body then overrides `status` (`|| 'AVAILABLE'`),
`isActive`, `isFeatured` (`|| false`), `images` (`|| []`), `viewCount`. -/
def createArtwork (b : ArtworkBody) (now : Nat) (s : ServerState) :
    HttpResponse ArtPayload × ServerState :=
  let errs := validateArtworkCreate b
  if errs.isEmpty then
    match s.categories.find? (fun c => b.categoryId = some c.id) with
    | none =>
      (⟨400, formatResponse false none "Invalid category" (some (.code "INVALID_CATEGORY")) now⟩, s)
    | some _ =>
      let newArtwork : Artwork := {
        id := v1NextId (s.artworks.map (fun a => a.id))
        name := jsTrim (b.name.getD "")
        description := b.description.getD ""
        price := b.price.getD 0
        originalPrice := match b.originalPrice with | some v => v | none => none
        medium := b.medium.getD ""
        dimensions := b.dimensions.getD ""
        year := b.year
        status := jsOrStr b.status "AVAILABLE"
        isActive := true
        isFeatured := b.isFeatured.getD false
        categoryId := b.categoryId.getD 0
        image := b.image.getD ""
        images := b.images.getD []
        viewCount := 0
        createdAt := now }
      (⟨201, formatResponse true (some ⟨newArtwork⟩) "Artwork created successfully" none now⟩,
       { s with artworks := s.artworks ++ [newArtwork] })
  else
    (⟨400, formatResponse false none "Validation failed" (some (.validationDetails errs)) now⟩, s)

/-- `POST /api/admin/login` (lines 354-403): 400 on missing credentials,
401 when no active admin matches the email or the stored credential
differs from the supplied password (a plain `!==` string comparison),
success profile + mock tokens otherwise.  Read-only. -/
def adminLogin (b : LoginBody) (now : Nat) (s : ServerState) :
    HttpResponse AdminLoginPayloadV1 :=
  if optTruthy b.email && optTruthy b.password then
    let email := b.email.getD ""
    let password := b.password.getD ""
    match s.admins.find? (fun a => a.email = email && a.isActive) with
    | none =>
      ⟨401, formatResponse false none "Invalid credentials" (some (.code "INVALID_CREDENTIALS")) now⟩
    | some admin =>
      if admin.passwordHash ≠ password then
        ⟨401, formatResponse false none "Invalid credentials" (some (.code "INVALID_CREDENTIALS")) now⟩
      else
        ⟨200, formatResponse true
          (some ⟨⟨admin.id, admin.username, admin.email, admin.role, admin.isActive, admin.createdAt⟩,
                 ⟨"mock-access-token-" ++ toString admin.id ++ "-" ++ toString now,
                  "mock-refresh-token-" ++ toString admin.id ++ "-" ++ toString now⟩⟩)
          "Login successful" none now⟩
  else
    ⟨400, formatResponse false none "Email and password are required"
      (some (.code "MISSING_CREDENTIALS")) now⟩

/-- Run a sequence of `GET /api/artworks/:id` requests, threading the
store. -/
def runGets (ids : List String) (now : Nat) (s : ServerState) : ServerState :=
  ids.foldl (fun st i => (getArtwork i now st).2) s

end V1

-- ===========================================================================
-- Variant 2 handlers (server.js lines 1243-2051)
-- ===========================================================================

namespace V2

/-- `GET /api/categories` (lines 1372-1381): identical logic to variant 1;
active categories sorted by `sortOrder`, records returned as stored. -/
def getCategories (now : Nat) (s : ServerState) : HttpResponse CatListPayload :=
  let activeCategories := sortByOrder (s.categories.filter (fun c => c.isActive))
  ⟨200, formatResponse true (some ⟨activeCategories, activeCategories.length⟩)
    "Categories retrieved successfully" none now⟩

/-- The live count `artworks.filter(art => art.categoryId === category.id
&& art.isActive).length` (line 1394). -/
def liveArtworkCount (s : ServerState) (cid : Int) : Nat :=
  (s.artworks.filter (fun a => a.categoryId = cid && a.isActive)).length

/-- `GET /api/categories/:id` (lines 1383-1402): the found record is
spread together with the live `artworkCount`. -/
def getCategory (idStr : String) (now : Nat) (s : ServerState) : HttpResponse CatPayload :=
  let parsed := jsParseInt idStr
  match s.categories.find? (fun c => idEq c.id parsed && c.isActive) with
  | none =>
    ⟨404, formatResponse false none "Category not found" (some (.code "CATEGORY_NOT_FOUND")) now⟩
  | some c =>
    ⟨200, formatResponse true (some ⟨{ c with artworkCount := some (liveArtworkCount s c.id) }⟩)
      "Category retrieved successfully" none now⟩

/-- `POST /api/categories` (lines 1405-1440): runtime truthiness check on
`name`/`description`, duplicate check over active categories only, raw
(untrimmed) name stored. -/
def createCategory (b : CategoryBody) (now : Nat) (s : ServerState) :
    HttpResponse CatPayload × ServerState :=
  if optTruthy b.name && optTruthy b.description then
    let name := b.name.getD ""
    if (s.categories.find? (fun c => jsToLower c.name = jsToLower name && c.isActive)).isSome then
      (⟨409, formatResponse false none "Category with this name already exists"
        (some (.code "CATEGORY_EXISTS")) now⟩, s)
    else
      let newCategory : Category := {
        id := v2NextId (s.categories.map (fun c => c.id))
        name := name
        description := b.description.getD ""
        color := jsOrStr b.color "#667eea"
        isActive := true
        sortOrder := s.categories.length + 1
        createdAt := now
        artworkCount := some 0 }
      (⟨201, formatResponse true (some ⟨newCategory⟩) "Category created successfully" none now⟩,
       { s with categories := s.categories ++ [newCategory] })
  else
    (⟨400, formatResponse false none "Category name and description are required"
      (some (.code "VALIDATION_ERROR")) now⟩, s)

/-- The conditional spread of `PUT /api/categories/:id` (lines 1470-1477):
`...(name && { name })` etc.; `isActive` is applied whenever supplied
(`!== undefined`). -/
def mergeCategory (old : Category) (b : UpdateCategoryBody) (now : Nat) : Category :=
  { old with
    name := jsOrStr b.name old.name
    description := jsOrStr b.description old.description
    color := jsOrStr b.color old.color
    isActive := b.isActive.getD old.isActive
    updatedAt := some now }

/-- `PUT /api/categories/:id` (lines 1443-1483): 404 when `findIndex`
fails; when a truthy `name` is supplied, 409 `CATEGORY_EXISTS` if another
active category (different id) carries the same name case-insensitively;
otherwise apply the conditional spread. -/
def updateCategory (idStr : String) (b : UpdateCategoryBody) (now : Nat) (s : ServerState) :
    HttpResponse CatPayload × ServerState :=
  let parsed := jsParseInt idStr
  match jsFindReplace (fun c => idEq c.id parsed) (fun old => mergeCategory old b now)
      s.categories with
  | none =>
    (⟨404, formatResponse false none "Category not found" (some (.code "CATEGORY_NOT_FOUND")) now⟩, s)
  | some (cs, merged) =>
    if optTruthy b.name &&
        (s.categories.find? (fun c =>
          jsToLower c.name = jsToLower (b.name.getD "") && !(idEq c.id parsed) && c.isActive)).isSome
    then
      (⟨409, formatResponse false none "Another category with this name already exists"
        (some (.code "CATEGORY_EXISTS")) now⟩, s)
    else
      (⟨200, formatResponse true (some ⟨merged⟩) "Category updated successfully" none now⟩,
       { s with categories := cs })

/-- `DELETE /api/categories/:id` (lines 1486-1511): 404 when `findIndex`
fails; 409 `CATEGORY_HAS_ARTWORKS` reporting the live count of active
artworks referencing the parsed id; otherwise splice the category out. -/
def deleteCategory (idStr : String) (now : Nat) (s : ServerState) :
    HttpResponse CatPayload × ServerState :=
  let parsed := jsParseInt idStr
  match jsFindRemove (fun c => idEq c.id parsed) s.categories with
  | none =>
    (⟨404, formatResponse false none "Category not found" (some (.code "CATEGORY_NOT_FOUND")) now⟩, s)
  | some (cs, cat) =>
    let categoryArtworks := s.artworks.filter (fun a => idEq a.categoryId parsed && a.isActive)
    if categoryArtworks.length > 0 then
      (⟨409, formatResponse false none
        ("Cannot delete category. It has " ++ toString categoryArtworks.length ++ " artwork(s)")
        (some (.code "CATEGORY_HAS_ARTWORKS")) now⟩, s)
    else
      (⟨200, formatResponse true (some ⟨cat⟩) "Category deleted successfully" none now⟩,
       { s with categories := cs })

/-- The filter chain of `GET /api/artworks` (lines 1530-1552); like
variant 1 except the literal string `'all'` also disables the category
filter. -/
def filterArtworks (q : ArtworksQuery) (s : ServerState) : List Artwork :=
  let l0 := s.artworks.filter (fun a => a.isActive)
  let l1 :=
    match q.category with
    | some c =>
      if c ≠ "" && c ≠ "all" then l0.filter (fun a => idEq a.categoryId (jsParseInt c)) else l0
    | none => l0
  let st := q.status.getD "AVAILABLE"
  let l2 := if st ≠ "" && st ≠ "ALL" then l1.filter (fun a => a.status = st) else l1
  let l3 := if q.featured = some "true" then l2.filter (fun a => a.isFeatured) else l2
  match q.search with
  | some sr =>
    if sr ≠ "" then
      l3.filter (fun a =>
        strIncludes (jsToLower a.name) (jsToLower sr) ||
        strIncludes (jsToLower a.description) (jsToLower sr) ||
        strIncludes (jsToLower a.medium) (jsToLower sr))
    else l3
  | none => l3

/-- The `switch (sort)` of lines 1555-1573: each branch is a stable sort
by the comparator's key (descending creation date for `newest`, etc.);
unknown keys keep the filtered order. -/
def sortArtworks (sortKey : String) (l : List Artwork) : List Artwork :=
  if sortKey = "newest" then l.insertionSort (fun a b => b.createdAt ≤ a.createdAt)
  else if sortKey = "oldest" then l.insertionSort (fun a b => a.createdAt ≤ b.createdAt)
  else if sortKey = "price-low" then l.insertionSort (fun a b => a.price ≤ b.price)
  else if sortKey = "price-high" then l.insertionSort (fun a b => b.price ≤ a.price)
  else if sortKey = "popular" then l.insertionSort (fun a b => b.viewCount ≤ a.viewCount)
  else l

/-- `Math.floor(parseInt(offset) / parseInt(limit)) + 1` (line 1592);
`none` models a non-finite JS result. -/
def pageOf (off lim : Option Int) : Option Int :=
  match off, lim with
  | some o, some l => (jsFloorDiv o l).map (fun p => p + 1)
  | _, _ => none

/-- `Math.ceil(total / parseInt(limit))` (line 1593). -/
def totalPagesOf (total : Nat) (lim : Option Int) : Option Int :=
  match lim with
  | some l => jsCeilDiv total l
  | none => none

/-- `GET /api/artworks` (lines 1517-1596): filter, stable sort, paginate,
then join each page item with its category (`find` over all categories,
active or not). -/
def getArtworks (q : ArtworksQuery) (now : Nat) (s : ServerState) :
    HttpResponse ArtListPayloadV2 :=
  let sorted := sortArtworks (q.sort.getD "newest") (filterArtworks q s)
  let lim := parsedOr 50 q.limit
  let off := parsedOr 0 q.offset
  let total := sorted.length
  let paginatedArtworks := jsSlice sorted (toIntOrZero off) (toIntOrZero (jsAddNum off lim))
  let artworksWithCategories :=
    paginatedArtworks.map (fun a => ⟨a, s.categories.find? (fun c => c.id = a.categoryId)⟩)
  ⟨200, formatResponse true
    (some ⟨artworksWithCategories,
           ⟨total, lim, off, jsLtNum (jsAddNum off lim) total,
            pageOf off lim, totalPagesOf total lim⟩⟩)
    "Artworks retrieved successfully" none now⟩

/-- `GET /api/artworks/:id` (lines 1598-1620): find the active artwork,
increment its stored `viewCount` in place, join the category, return. -/
def getArtwork (idStr : String) (now : Nat) (s : ServerState) :
    HttpResponse ArtPayloadV2 × ServerState :=
  let parsed := jsParseInt idStr
  match jsFindReplace (fun a => idEq a.id parsed && a.isActive) bumpView s.artworks with
  | none =>
    (⟨404, formatResponse false none "Artwork not found" (some (.code "ARTWORK_NOT_FOUND")) now⟩, s)
  | some (arts, a) =>
    (⟨200, formatResponse true (some ⟨⟨a, s.categories.find? (fun c => c.id = a.categoryId)⟩⟩)
      "Artwork retrieved successfully" none now⟩,
     { s with artworks := arts })

/-- `POST /api/artworks` (lines 1623-1666): runtime truthiness check on
`name`/`description`/`price`/`categoryId`; the referenced category must
exist and be active; `year` defaults to the current year (`yearNow`). -/
def createArtwork (b : ArtworkBody) (now : Nat) (yearNow : Int) (s : ServerState) :
    HttpResponse ArtPayload × ServerState :=
  if optTruthy b.name && optTruthy b.description && ratTruthy b.price && intTruthy b.categoryId then
    match s.categories.find? (fun c => b.categoryId = some c.id && c.isActive) with
    | none =>
      (⟨400, formatResponse false none "Invalid category ID" (some (.code "INVALID_CATEGORY")) now⟩, s)
    | some _ =>
      let newArtwork : Artwork := {
        id := v2NextId (s.artworks.map (fun a => a.id))
        name := b.name.getD ""
        description := b.description.getD ""
        price := b.price.getD 0
        originalPrice := jsOrNullRat b.originalPrice
        medium := jsOrStr b.medium ""
        dimensions := jsOrStr b.dimensions ""
        year := some (match b.year with
          | some y => if y ≠ 0 then y else yearNow
          | none => yearNow)
        status := jsOrStr b.status "AVAILABLE"
        isActive := true
        isFeatured := b.isFeatured.getD false
        categoryId := b.categoryId.getD 0
        image := jsOrStr b.image "https://images.unsplash.com/photo-1578662996442-48f60103fc96?w=800"
        viewCount := 0
        createdAt := now
        updatedAt := some now }
      (⟨201, formatResponse true (some ⟨newArtwork⟩) "Artwork created successfully" none now⟩,
       { s with artworks := s.artworks ++ [newArtwork] })
  else
    (⟨400, formatResponse false none "Name, description, price, and category are required"
      (some (.code "VALIDATION_ERROR")) now⟩, s)

/-- The conditional spread of `PUT /api/artworks/:id` (lines 1694-1709):
truthy numeric and string fields replace stored ones, `originalPrice`
follows `!== undefined` with inner truthiness, `isFeatured`/`isActive`
follow `!== undefined`.  `viewCount`, `id` and `createdAt` are never
touched. -/
def mergeArtwork (old : Artwork) (b : ArtworkBody) (now : Nat) : Artwork :=
  { old with
    name := jsOrStr b.name old.name
    description := jsOrStr b.description old.description
    price := match b.price with
      | some p => if p ≠ 0 then p else old.price
      | none => old.price
    originalPrice := match b.originalPrice with
      | some v => jsOrNullRat (some v)
      | none => old.originalPrice
    medium := jsOrStr b.medium old.medium
    dimensions := jsOrStr b.dimensions old.dimensions
    year := match b.year with
      | some y => if y ≠ 0 then some y else old.year
      | none => old.year
    categoryId := match b.categoryId with
      | some c => if c ≠ 0 then c else old.categoryId
      | none => old.categoryId
    image := jsOrStr b.image old.image
    status := jsOrStr b.status old.status
    isFeatured := b.isFeatured.getD old.isFeatured
    isActive := b.isActive.getD old.isActive
    updatedAt := some now }

/-- `PUT /api/artworks/:id` (lines 1669-1715): 404 when `findIndex` fails;
400 `INVALID_CATEGORY` when a truthy `categoryId` references no active
category; otherwise apply the conditional spread. -/
def updateArtwork (idStr : String) (b : ArtworkBody) (now : Nat) (s : ServerState) :
    HttpResponse ArtPayload × ServerState :=
  let parsed := jsParseInt idStr
  match jsFindReplace (fun a => idEq a.id parsed) (fun old => mergeArtwork old b now)
      s.artworks with
  | none =>
    (⟨404, formatResponse false none "Artwork not found" (some (.code "ARTWORK_NOT_FOUND")) now⟩, s)
  | some (arts, merged) =>
    if intTruthy b.categoryId &&
        !(s.categories.find? (fun c => b.categoryId = some c.id && c.isActive)).isSome then
      (⟨400, formatResponse false none "Invalid category ID" (some (.code "INVALID_CATEGORY")) now⟩, s)
    else
      (⟨200, formatResponse true (some ⟨merged⟩) "Artwork updated successfully" none now⟩,
       { s with artworks := arts })

/-- `DELETE /api/artworks/:id` (lines 1718-1734). -/
def deleteArtwork (idStr : String) (now : Nat) (s : ServerState) :
    HttpResponse ArtPayload × ServerState :=
  match jsFindRemove (fun a => idEq a.id (jsParseInt idStr)) s.artworks with
  | none =>
    (⟨404, formatResponse false none "Artwork not found" (some (.code "ARTWORK_NOT_FOUND")) now⟩, s)
  | some (arts, a) =>
    (⟨200, formatResponse true (some ⟨a⟩) "Artwork deleted successfully" none now⟩,
     { s with artworks := arts })

/-- `POST /api/admin/login` (lines 1316-1356): like variant 1 but the
found admin's `lastLogin` is set to the current time before the success
response (no mutation on the 401 paths). -/
def adminLogin (b : LoginBody) (now : Nat) (s : ServerState) :
    HttpResponse AdminLoginPayloadV2 × ServerState :=
  if optTruthy b.email && optTruthy b.password then
    let email := b.email.getD ""
    let password := b.password.getD ""
    match jsFindReplace (fun a => a.email = email && a.isActive)
        (fun a => { a with lastLogin := some now }) s.admins with
    | none =>
      (⟨401, formatResponse false none "Invalid credentials" (some (.code "INVALID_CREDENTIALS")) now⟩, s)
    | some (adm, a) =>
      if a.passwordHash ≠ password then
        (⟨401, formatResponse false none "Invalid credentials" (some (.code "INVALID_CREDENTIALS")) now⟩, s)
      else
        (⟨200, formatResponse true
          (some ⟨⟨a.id, a.username, a.email, a.role, a.isActive, a.createdAt, a.lastLogin⟩,
                 ⟨"elouarate-access-" ++ toString a.id ++ "-" ++ toString now,
                  "elouarate-refresh-" ++ toString a.id ++ "-" ++ toString now⟩⟩)
          "Login successful" none now⟩,
         { s with admins := adm })
  else
    (⟨400, formatResponse false none "Email and password are required"
      (some (.code "MISSING_CREDENTIALS")) now⟩, s)

/-- Run a sequence of `GET /api/artworks/:id` requests, threading the
store. -/
def runGets (ids : List String) (now : Nat) (s : ServerState) : ServerState :=
  ids.foldl (fun st i => (getArtwork i now st).2) s

end V2

-- ===========================================================================
-- Seed data (boot time modelled as clock reading 0)
-- ===========================================================================

/-- Variant 1 seed store (server.js lines 222-307). -/
def v1Init : ServerState := {
  categories := [
    { id := 1, name := "Paintings", description := "Beautiful hand-painted artworks",
      color := "#FF6B6B", isActive := true, sortOrder := 1, createdAt := 0 },
    { id := 2, name := "Sculptures", description := "Three-dimensional art pieces",
      color := "#4ECDC4", isActive := true, sortOrder := 2, createdAt := 0 },
    { id := 3, name := "Digital Art", description := "Modern digital creations",
      color := "#45B7D1", isActive := true, sortOrder := 3, createdAt := 0 },
    { id := 4, name := "Photography", description := "Captured moments in time",
      color := "#96CEB4", isActive := true, sortOrder := 4, createdAt := 0 }]
  artworks := [
    { id := 1, name := "Sunset Dreams",
      description := "A beautiful painting capturing the essence of a Mediterranean sunset",
      price := 1200, originalPrice := some 1500, medium := "Oil on Canvas",
      dimensions := "60x80cm", year := some 2023, status := "AVAILABLE", isActive := true,
      isFeatured := true, categoryId := 1, images := ["/uploads/placeholder-artwork-1.jpg"],
      viewCount := 0, createdAt := 0 },
    { id := 2, name := "Modern Harmony",
      description := "Contemporary sculpture representing balance and movement",
      price := 2500, medium := "Bronze", dimensions := "45x30x25cm", year := some 2023,
      status := "AVAILABLE", isActive := true, isFeatured := false, categoryId := 2,
      images := ["/uploads/placeholder-artwork-2.jpg"], viewCount := 0, createdAt := 0 }]
  admins := [
    { id := 1, username := "admin", email := "admin@elouarate.com",
      passwordHash := "Admin123!", isActive := true, role := "ADMIN", createdAt := 0 }] }

/-- Variant 2 seed store (server.js lines 1094-1237).  Note the static
`artworkCount` fields stored on the seed categories. -/
def v2Init : ServerState := {
  categories := [
    { id := 1, name := "Paintings",
      description := "Beautiful hand-painted artworks featuring landscapes, portraits, and abstract designs",
      color := "#FF6B6B", isActive := true, sortOrder := 1, createdAt := 0,
      artworkCount := some 4 },
    { id := 2, name := "Sculptures",
      description := "Three-dimensional art pieces crafted with precision and artistic vision",
      color := "#4ECDC4", isActive := true, sortOrder := 2, createdAt := 0,
      artworkCount := some 2 },
    { id := 3, name := "Digital Art",
      description := "Modern digital creations blending traditional art with cutting-edge technology",
      color := "#45B7D1", isActive := true, sortOrder := 3, createdAt := 0,
      artworkCount := some 3 },
    { id := 4, name := "Photography",
      description := "Captured moments in time showcasing the beauty of Moroccan culture and landscapes",
      color := "#96CEB4", isActive := true, sortOrder := 4, createdAt := 0,
      artworkCount := some 2 }]
  artworks := [
    { id := 1, name := "Sunset Over Marrakech",
      description := "A breathtaking oil painting capturing the magical golden hour in Marrakech, with traditional architecture silhouetted against a vibrant sky.",
      price := 1200, originalPrice := some 1500, medium := "Oil on Canvas",
      dimensions := "60x80cm", year := some 2023, status := "AVAILABLE", isActive := true,
      isFeatured := true, categoryId := 1,
      image := "https://images.unsplash.com/photo-1582555172866-f73bb12a2ab3?w=800",
      viewCount := 45, createdAt := 0, updatedAt := some 0 },
    { id := 2, name := "Modern Harmony",
      description := "A contemporary bronze sculpture representing the balance between tradition and modernity in Moroccan art.",
      price := 2500, medium := "Bronze", dimensions := "45x30x25cm", year := some 2023,
      status := "AVAILABLE", isActive := true, isFeatured := false, categoryId := 2,
      image := "https://images.unsplash.com/photo-1578662996442-48f60103fc96?w=800",
      viewCount := 23, createdAt := 0, updatedAt := some 0 },
    { id := 3, name := "Atlas Mountains Vista",
      description := "A stunning landscape painting showcasing the majestic Atlas Mountains with traditional Berber villages nestled in the valleys.",
      price := 950, medium := "Acrylic on Canvas", dimensions := "70x50cm", year := some 2024,
      status := "AVAILABLE", isActive := true, isFeatured := true, categoryId := 1,
      image := "https://images.unsplash.com/photo-1539650116574-75c0c6d3cebc?w=800",
      viewCount := 67, createdAt := 0, updatedAt := some 0 },
    { id := 4, name := "Digital Mosque",
      description := "A modern digital artwork blending traditional Islamic architecture with contemporary digital art techniques.",
      price := 650, medium := "Digital Print", dimensions := "50x70cm", year := some 2024,
      status := "AVAILABLE", isActive := true, isFeatured := false, categoryId := 3,
      image := "https://images.unsplash.com/photo-1564769625905-4ac4b8d94704?w=800",
      viewCount := 34, createdAt := 0, updatedAt := some 0 },
    { id := 5, name := "Casablanca Streets",
      description := "A captivating photograph of the bustling streets of Casablanca, showcasing the vibrant urban life of Morocco.",
      price := 450, medium := "Photography", dimensions := "40x60cm", year := some 2023,
      status := "SOLD", isActive := true, isFeatured := false, categoryId := 4,
      image := "https://images.unsplash.com/photo-1539650116574-75c0c6d3cebc?w=800",
      viewCount := 89, createdAt := 0, updatedAt := some 0 }]
  admins := [
    { id := 1, username := "admin", email := "admin@elouarate.com",
      passwordHash := "Admin123!", isActive := true, role := "ADMIN", createdAt := 0,
      lastLogin := none }] }

/-- Consistency of a response envelope: a success carries no error field
and a failure carries no data field. -/
def envelopeConsistent {α : Type} (e : Envelope α) : Prop :=
  (e.success = true → e.error = none) ∧ (e.success = false → e.data = none)

-- ===========================================================================
-- Helper lemmas about the JS-semantics combinators
-- ===========================================================================

instance : IsTotal Category (fun a b => a.sortOrder ≤ b.sortOrder) :=
  ⟨fun a b => le_total a.sortOrder b.sortOrder⟩

instance : IsTrans Category (fun a b => a.sortOrder ≤ b.sortOrder) :=
  ⟨fun _ _ _ h1 h2 => le_trans h1 h2⟩

theorem jsFindReplace_eq_none {α : Type} {p : α → Bool} {f : α → α} {l : List α} :
    jsFindReplace p f l = none ↔ ∀ x ∈ l, p x = false := by
  induction l with
  | nil => simp [jsFindReplace]
  | cons y ys ih =>
    by_cases hy : p y
    · simp [jsFindReplace, hy]
    · simp [jsFindReplace, hy, ih]

theorem jsFindReplace_some {α : Type} {p : α → Bool} {f : α → α} {l : List α}
    {res : List α × α} (h : jsFindReplace p f l = some res) :
    ∃ l1 x l2, l = l1 ++ x :: l2 ∧ (∀ b ∈ l1, p b = false) ∧ p x = true ∧
      res.1 = l1 ++ f x :: l2 ∧ res.2 = f x := by
  induction l generalizing res with
  | nil => simp [jsFindReplace] at h
  | cons y ys ih =>
    by_cases hy : p y
    · rw [jsFindReplace, if_pos hy] at h
      refine ⟨[], y, ys, rfl, by simp, hy, ?_, ?_⟩ <;> simp [← Option.some_inj.mp h]
    · rw [jsFindReplace, if_neg hy] at h
      cases hr : jsFindReplace p f ys with
      | none => rw [hr] at h; simp at h
      | some r =>
        rw [hr] at h
        simp only [Option.map_some', Option.some_inj] at h
        obtain ⟨l1, x, l2, hys, hl1, hx, h1, h2⟩ := ih hr
        refine ⟨y :: l1, x, l2, by simp [hys], ?_, hx, ?_, ?_⟩
        · intro b hb
          rcases List.mem_cons.mp hb with rfl | hb
          · simpa using hy
          · exact hl1 b hb
        · rw [← h]; simp [h1]
        · rw [← h]; exact h2

theorem jsFindRemove_eq_none {α : Type} {p : α → Bool} {l : List α} :
    jsFindRemove p l = none ↔ ∀ x ∈ l, p x = false := by
  induction l with
  | nil => simp [jsFindRemove]
  | cons y ys ih =>
    by_cases hy : p y
    · simp [jsFindRemove, hy]
    · simp [jsFindRemove, hy, ih]

theorem jsFindRemove_some {α : Type} {p : α → Bool} {l : List α}
    {res : List α × α} (h : jsFindRemove p l = some res) :
    ∃ l1 l2, l = l1 ++ res.2 :: l2 ∧ (∀ b ∈ l1, p b = false) ∧ p res.2 = true ∧
      res.1 = l1 ++ l2 := by
  induction l generalizing res with
  | nil => simp [jsFindRemove] at h
  | cons y ys ih =>
    by_cases hy : p y
    · rw [jsFindRemove, if_pos hy] at h
      obtain rfl := Option.some_inj.mp h
      exact ⟨[], ys, rfl, by simp, hy, rfl⟩
    · rw [jsFindRemove, if_neg hy] at h
      cases hr : jsFindRemove p ys with
      | none => rw [hr] at h; simp at h
      | some r =>
        rw [hr] at h
        simp only [Option.map_some', Option.some_inj] at h
        obtain ⟨l1, l2, hys, hl1, hx, h1⟩ := ih hr
        subst h
        refine ⟨y :: l1, l2, by simp [hys], ?_, hx, by simp [h1]⟩
        intro b hb
        rcases List.mem_cons.mp hb with rfl | hb
        · simpa using hy
        · exact hl1 b hb

theorem jsFindReplace_of_find? {α : Type} {p : α → Bool} (f : α → α) {l : List α} {a : α}
    (h : l.find? p = some a) :
    ∃ l1 l2, l = l1 ++ a :: l2 ∧ (∀ b ∈ l1, p b = false) ∧ p a = true ∧
      jsFindReplace p f l = some (l1 ++ f a :: l2, f a) := by
  induction l with
  | nil => simp at h
  | cons y ys ih =>
    by_cases hy : p y
    · rw [List.find?_cons_of_pos _ hy, Option.some_inj] at h
      subst h
      exact ⟨[], ys, rfl, by simp, hy, by simp [jsFindReplace, hy]⟩
    · rw [List.find?_cons_of_neg _ hy] at h
      obtain ⟨l1, l2, hys, hl1, ha, hr⟩ := ih h
      refine ⟨y :: l1, l2, by simp [hys], ?_, ha, ?_⟩
      · intro b hb
        rcases List.mem_cons.mp hb with rfl | hb
        · simpa using hy
        · exact hl1 b hb
      · rw [jsFindReplace, if_neg hy, hr]
        rfl

theorem jsFindReplace_append_last {α : Type} {p : α → Bool} (f : α → α) {l : List α} {x : α}
    (hl : ∀ b ∈ l, p b = false) (hx : p x = true) :
    jsFindReplace p f (l ++ [x]) = some (l ++ [f x], f x) := by
  induction l with
  | nil => simp [jsFindReplace, hx]
  | cons y ys ih =>
    have hy : p y = false := hl y (by simp)
    rw [List.cons_append, jsFindReplace, if_neg (by simp [hy]),
      ih (fun b hb => hl b (List.mem_cons_of_mem _ hb))]
    rfl

theorem mem_sortByOrder {c : Category} {l : List Category} :
    c ∈ sortByOrder l ↔ c ∈ l := by
  exact (List.perm_insertionSort
    (fun a b : Category => a.sortOrder ≤ b.sortOrder) l).mem_iff

theorem sortByOrder_pairwise (l : List Category) :
    (sortByOrder l).Pairwise (fun a b => a.sortOrder ≤ b.sortOrder) :=
  List.sorted_insertionSort (fun a b : Category => a.sortOrder ≤ b.sortOrder) l

theorem sortArtworks_length (k : String) (l : List Artwork) :
    (V2.sortArtworks k l).length = l.length := by
  unfold V2.sortArtworks
  split_ifs <;> first
    | rfl
    | exact (List.perm_insertionSort _ _).length_eq

theorem jsSlice_length {α : Type} (l : List α) (O L : Int) (hO : 0 ≤ O) (hL : 0 ≤ L) :
    (jsSlice l O (O + L)).length = min L.toNat (l.length - O.toNat) := by
  simp only [jsSlice, List.length_take, List.length_drop]
  rw [if_neg (by omega), if_neg (by omega)]
  omega

-- ===========================================================================
-- C1: deleting a category with referencing artworks
-- ===========================================================================

/-- Claim C1, counterexample.  The claim states that for every category id
present in the store, a DELETE with `N > 0` active referencing artworks
fails with 409 `CATEGORY_HAS_ARTWORKS` and leaves the stores unchanged.
Variant 1's `DELETE /api/categories/:id` (server.js 562-583) performs no
artwork check: on the variant-1 seed store, category 1 is referenced by
one active artwork, yet deleting it succeeds (HTTP 200) and removes the
category. -/
theorem claim_C1_counterexample :
    (v1Init.artworks.filter (fun a => a.categoryId = 1 && a.isActive)).length = 1 ∧
    (V1.deleteCategory "1" 0 v1Init).1.status = 200 ∧
    (V1.deleteCategory "1" 0 v1Init).1.body.success = true ∧
    (V1.deleteCategory "1" 0 v1Init).2.categories.map (fun c => c.id) = [2, 3, 4] := by
  decide

/-- Claim C1, amended.  For every category id present in the store (the
`findIndex` succeeds, returning the spliced list `res.1` and the found
category `res.2`): in mock variant 2, if `N > 0` active artworks reference
the parsed id the DELETE returns 409 `CATEGORY_HAS_ARTWORKS`, reports `N`
in the message, and leaves the store unchanged, and if `N = 0` the delete
succeeds and removes exactly that category; mock variant 1 instead
deletes the category unconditionally (leaving the artworks store
unchanged). -/
theorem claim_C1 (idStr : String) (now : Nat) (s : ServerState) (res : List Category × Category)
    (h : jsFindRemove (fun c => idEq c.id (jsParseInt idStr)) s.categories = some res) :
    (0 < (s.artworks.filter (fun a => idEq a.categoryId (jsParseInt idStr) && a.isActive)).length →
      (V2.deleteCategory idStr now s).1.status = 409 ∧
      (V2.deleteCategory idStr now s).1.body.success = false ∧
      (V2.deleteCategory idStr now s).1.body.error = some (.code "CATEGORY_HAS_ARTWORKS") ∧
      (V2.deleteCategory idStr now s).1.body.message =
        "Cannot delete category. It has " ++
          toString (s.artworks.filter
            (fun a => idEq a.categoryId (jsParseInt idStr) && a.isActive)).length ++
          " artwork(s)" ∧
      (V2.deleteCategory idStr now s).2 = s) ∧
    ((s.artworks.filter (fun a => idEq a.categoryId (jsParseInt idStr) && a.isActive)).length = 0 →
      (V2.deleteCategory idStr now s).1.status = 200 ∧
      (V2.deleteCategory idStr now s).1.body.success = true ∧
      (V2.deleteCategory idStr now s).2.categories = res.1 ∧
      (V2.deleteCategory idStr now s).2.artworks = s.artworks ∧
      ∃ l1 l2, s.categories = l1 ++ res.2 :: l2 ∧ res.1 = l1 ++ l2) ∧
    ((V1.deleteCategory idStr now s).1.status = 200 ∧
      (V1.deleteCategory idStr now s).1.body.success = true ∧
      (V1.deleteCategory idStr now s).2.categories = res.1 ∧
      (V1.deleteCategory idStr now s).2.artworks = s.artworks) := by
  refine ⟨?_, ?_, ?_⟩
  · intro hn
    simp only [V2.deleteCategory, h]
    rw [if_pos hn]
    and_intros <;> first | rfl | trivial
  · intro hn
    simp only [V2.deleteCategory, h]
    rw [if_neg (by omega)]
    obtain ⟨l1, l2, hl, _, _, h1⟩ := jsFindRemove_some h
    refine ⟨?_, ?_, ?_, ?_, ⟨l1, l2, hl, h1⟩⟩ <;> first | rfl | trivial
  · simp only [V1.deleteCategory, h]
    and_intros <;> first | rfl | trivial

/-- Claim C1, witness: deleting category 1 on the variant-2 seed store,
which is referenced by two active artworks, yields 409. -/
theorem claim_C1_witness :
    0 < (v2Init.artworks.filter (fun a => idEq a.categoryId (jsParseInt "1") && a.isActive)).length ∧
    (V2.deleteCategory "1" 0 v2Init).1.status = 409 :=
  ⟨by decide,
   ((claim_C1 "1" 0 v2Init
      (v2Init.categories.drop 1,
       { id := 1, name := "Paintings",
         description := "Beautiful hand-painted artworks featuring landscapes, portraits, and abstract designs",
         color := "#FF6B6B", isActive := true, sortOrder := 1, createdAt := 0,
         artworkCount := some 4 })
      (by decide)).1 (by decide)).1⟩

-- ===========================================================================
-- C2: case-insensitive name uniqueness among active categories
-- ===========================================================================

/-- Claim C2, counterexample.  The claim states that renaming a category
to a name colliding case-insensitively with another active category
always yields 409 `CATEGORY_EXISTS` without modifying the store.
Variant 1's `PUT /api/categories/:id` (server.js 525-559) performs no
collision check: on the variant-1 seed store, where category 1 is the
active category "Paintings", renaming category 2 to "Paintings" succeeds
and leaves two active categories with the same name. -/
theorem claim_C2_counterexample :
    (v1Init.categories.map (fun c => (c.name, c.isActive))).take 1 = [("Paintings", true)] ∧
    (V1.updateCategory "2" { name := some "Paintings" } 0 v1Init).1.status = 200 ∧
    (V1.updateCategory "2" { name := some "Paintings" } 0 v1Init).1.body.success = true ∧
    ((V1.updateCategory "2" { name := some "Paintings" } 0 v1Init).2.categories.map
      (fun c => (c.name, c.isActive))) =
      [("Paintings", true), ("Paintings", true), ("Digital Art", true), ("Photography", true)] := by
  decide

/-- Claim C2, amended.  POST with a name colliding case-insensitively with
an active category returns 409 `CATEGORY_EXISTS` and leaves the store
unchanged, in both variants (variant 1 compares the trimmed name and also
rejects collisions with inactive categories, which subsumes the claim's
active case); PUT renaming to a name colliding with a different active
category returns 409 `CATEGORY_EXISTS` and leaves the store unchanged in
variant 2 only — variant 1's PUT performs no collision check (see the
counterexample). -/
theorem claim_C2 :
    (∀ (b : CategoryBody) (now : Nat) (s : ServerState),
      V1.validateCategoryCreate b = [] →
      (∃ c ∈ s.categories, c.isActive = true ∧
        jsToLower c.name = jsToLower (jsTrim (b.name.getD ""))) →
      (V1.createCategory b now s).1.status = 409 ∧
      (V1.createCategory b now s).1.body.success = false ∧
      (V1.createCategory b now s).1.body.error = some (.code "CATEGORY_EXISTS") ∧
      (V1.createCategory b now s).2 = s) ∧
    (∀ (b : CategoryBody) (now : Nat) (s : ServerState),
      optTruthy b.name = true → optTruthy b.description = true →
      (∃ c ∈ s.categories, c.isActive = true ∧
        jsToLower c.name = jsToLower (b.name.getD "")) →
      (V2.createCategory b now s).1.status = 409 ∧
      (V2.createCategory b now s).1.body.success = false ∧
      (V2.createCategory b now s).1.body.error = some (.code "CATEGORY_EXISTS") ∧
      (V2.createCategory b now s).2 = s) ∧
    (∀ (idStr : String) (b : UpdateCategoryBody) (now : Nat) (s : ServerState),
      optTruthy b.name = true →
      s.categories.any (fun c => idEq c.id (jsParseInt idStr)) = true →
      (∃ c ∈ s.categories, c.isActive = true ∧ idEq c.id (jsParseInt idStr) = false ∧
        jsToLower c.name = jsToLower (b.name.getD "")) →
      (V2.updateCategory idStr b now s).1.status = 409 ∧
      (V2.updateCategory idStr b now s).1.body.success = false ∧
      (V2.updateCategory idStr b now s).1.body.error = some (.code "CATEGORY_EXISTS") ∧
      (V2.updateCategory idStr b now s).2 = s) := by
  refine ⟨?_, ?_, ?_⟩
  · intro b now s hval ⟨c, hc, hact, hlow⟩
    have hfind : (s.categories.find?
        (fun c2 => jsToLower c2.name = jsToLower (jsTrim (b.name.getD "")))).isSome = true :=
      List.find?_isSome.mpr ⟨c, hc, by simp [hlow]⟩
    simp only [V1.createCategory, hval]
    rw [if_pos (show ([] : List String).isEmpty = true from rfl), if_pos hfind]
    and_intros <;> rfl
  · intro b now s hname hdesc ⟨c, hc, hact, hlow⟩
    have hfind : (s.categories.find?
        (fun c2 => jsToLower c2.name = jsToLower (b.name.getD "") && c2.isActive)).isSome = true :=
      List.find?_isSome.mpr ⟨c, hc, by simp [hlow, hact]⟩
    simp only [V2.createCategory]
    rw [if_pos (by simp [hname, hdesc]), if_pos hfind]
    and_intros <;> rfl
  · intro idStr b now s hname hany ⟨c, hc, hact, hne, hlow⟩
    cases hrep : jsFindReplace (fun c2 => idEq c2.id (jsParseInt idStr))
        (fun old => V2.mergeCategory old b now) s.categories with
    | none =>
      obtain ⟨x, hx, hpx⟩ := List.any_eq_true.mp hany
      have := jsFindReplace_eq_none.mp hrep x hx
      rw [hpx] at this
      exact absurd this (by simp)
    | some res =>
      have hfind : (s.categories.find?
          (fun c2 => jsToLower c2.name = jsToLower (b.name.getD "") &&
            !(idEq c2.id (jsParseInt idStr)) && c2.isActive)).isSome = true :=
        List.find?_isSome.mpr ⟨c, hc, by simp [hlow, hact, hne]⟩
      simp only [V2.updateCategory, hrep]
      rw [if_pos (by simp [hname, hfind])]
      and_intros <;> rfl

/-- Claim C2, witness: creating a category named "Paintings" on the
variant-1 seed store (which already has an active "Paintings") yields
409. -/
theorem claim_C2_witness :
    V1.validateCategoryCreate { name := some "Paintings" } = [] ∧
    (V1.createCategory { name := some "Paintings" } 0 v1Init).1.status = 409 :=
  ⟨by decide,
   (claim_C2.1 { name := some "Paintings" } 0 v1Init (by decide) (by decide)).1⟩

-- ===========================================================================
-- C9: category listing contents, order, and annotation
-- ===========================================================================

/-- Claim C9, counterexample.  The claim states that each category
returned by `GET /api/categories` is annotated with a live count of the
active artworks referencing it, and that equal `sortOrder` ties are
broken by name.  Both parts fail: (i) variant 1's listing carries no
artwork count at all; (ii) variant 2's listing returns the stored static
`artworkCount` (4 for category 1 on the seed store) although only 2
active artworks reference category 1; (iii) after deleting category 1 and
creating "Alpha" (which is assigned the already-used `sortOrder` 4),
variant 1 lists "Photography" before "Alpha" — insertion order, not name
order, breaks the tie. -/
theorem claim_C9_counterexample :
    ((V1.getCategories 0 v1Init).body.data.map
      (fun pl => pl.categories.map (fun c => c.artworkCount))) =
      some [none, none, none, none] ∧
    ((V2.getCategories 0 v2Init).body.data.map
      (fun pl => pl.categories.map (fun c => (c.id, c.artworkCount)))) =
      some [(1, some 4), (2, some 2), (3, some 3), (4, some 2)] ∧
    V2.liveArtworkCount v2Init 1 = 2 ∧
    ((V1.getCategories 0 (V1.createCategory { name := some "Alpha" } 0
        (V1.deleteCategory "1" 0 v1Init).2).2).body.data.map
      (fun pl => pl.categories.map (fun c => (c.name, c.sortOrder)))) =
      some [("Sculptures", 2), ("Digital Art", 3), ("Photography", 4), ("Alpha", 4)] := by
  decide

/-- Claim C9, amended.  `GET /api/categories` (both variants) returns
exactly the categories whose `isActive` flag is true, ordered by
`sortOrder` (stably: equal `sortOrder` keeps insertion order, with no
name tiebreak), with each record returned exactly as stored — no live
artwork count is computed (variant 2 carries a stored static
`artworkCount` field that the listing does not recompute). -/
theorem claim_C9 (now : Nat) (s : ServerState) :
    (∃ pl, (V1.getCategories now s).body.data = some pl ∧
      pl.categories = sortByOrder (s.categories.filter (fun c => c.isActive)) ∧
      (∀ c, c ∈ pl.categories ↔ c ∈ s.categories ∧ c.isActive = true) ∧
      pl.categories.Pairwise (fun a b => a.sortOrder ≤ b.sortOrder) ∧
      pl.total = pl.categories.length) ∧
    (∃ pl, (V2.getCategories now s).body.data = some pl ∧
      pl.categories = sortByOrder (s.categories.filter (fun c => c.isActive)) ∧
      (∀ c, c ∈ pl.categories ↔ c ∈ s.categories ∧ c.isActive = true) ∧
      pl.categories.Pairwise (fun a b => a.sortOrder ≤ b.sortOrder) ∧
      pl.total = pl.categories.length) := by
  refine ⟨⟨_, rfl, rfl, ?_, ?_, rfl⟩, ⟨_, rfl, rfl, ?_, ?_, rfl⟩⟩ <;>
    first
      | exact fun c => by simp [mem_sortByOrder, List.mem_filter]
      | exact sortByOrder_pairwise _

/-- Claim C9, witness: the amended theorem applied to the variant-1 seed
store. -/
theorem claim_C9_witness :
    ∃ pl, (V1.getCategories 0 v1Init).body.data = some pl ∧
      pl.categories = sortByOrder (v1Init.categories.filter (fun c => c.isActive)) ∧
      (∀ c, c ∈ pl.categories ↔ c ∈ v1Init.categories ∧ c.isActive = true) ∧
      pl.categories.Pairwise (fun a b => a.sortOrder ≤ b.sortOrder) ∧
      pl.total = pl.categories.length :=
  (claim_C9 0 v1Init).1

-- ===========================================================================
-- C10: malformed or unknown ids on the GET detail endpoints
-- ===========================================================================

/-- Claim C8.  With truthy email and password supplied,
`POST /api/admin/login` (both variants) returns 401 `INVALID_CREDENTIALS`
whenever no active admin carries the supplied email, or the found admin's
stored credential differs from the supplied password; when both match it
returns the admin profile and non-empty access and refresh tokens
(variant 2 also records `lastLogin`).  The password check in the mock is
a plain string equality against the stored `passwordHash` field; its
timing behaviour (the claim's "constant-time" qualifier) is outside this
embedding. -/
theorem claim_C8 (em pw : String) (now : Nat) (s : ServerState)
    (hem : em ≠ "") (hpw : pw ≠ "") :
    (s.admins.find? (fun a => a.email = em && a.isActive) = none →
      (V1.adminLogin ⟨some em, some pw⟩ now s).status = 401 ∧
      (V1.adminLogin ⟨some em, some pw⟩ now s).body.success = false ∧
      (V1.adminLogin ⟨some em, some pw⟩ now s).body.error = some (.code "INVALID_CREDENTIALS") ∧
      (V2.adminLogin ⟨some em, some pw⟩ now s).1.status = 401 ∧
      (V2.adminLogin ⟨some em, some pw⟩ now s).1.body.error = some (.code "INVALID_CREDENTIALS") ∧
      (V2.adminLogin ⟨some em, some pw⟩ now s).2 = s) ∧
    (∀ a, s.admins.find? (fun a2 => a2.email = em && a2.isActive) = some a →
      (a.passwordHash ≠ pw →
        (V1.adminLogin ⟨some em, some pw⟩ now s).status = 401 ∧
        (V1.adminLogin ⟨some em, some pw⟩ now s).body.success = false ∧
        (V1.adminLogin ⟨some em, some pw⟩ now s).body.error = some (.code "INVALID_CREDENTIALS") ∧
        (V2.adminLogin ⟨some em, some pw⟩ now s).1.status = 401 ∧
        (V2.adminLogin ⟨some em, some pw⟩ now s).1.body.error = some (.code "INVALID_CREDENTIALS") ∧
        (V2.adminLogin ⟨some em, some pw⟩ now s).2 = s) ∧
      (a.passwordHash = pw →
        (V1.adminLogin ⟨some em, some pw⟩ now s).status = 200 ∧
        (V1.adminLogin ⟨some em, some pw⟩ now s).body.success = true ∧
        (∃ pl, (V1.adminLogin ⟨some em, some pw⟩ now s).body.data = some pl ∧
          pl.admin = ⟨a.id, a.username, a.email, a.role, a.isActive, a.createdAt⟩ ∧
          0 < pl.tokens.accessToken.length ∧ 0 < pl.tokens.refreshToken.length) ∧
        (V2.adminLogin ⟨some em, some pw⟩ now s).1.status = 200 ∧
        (V2.adminLogin ⟨some em, some pw⟩ now s).1.body.success = true ∧
        (∃ pl, (V2.adminLogin ⟨some em, some pw⟩ now s).1.body.data = some pl ∧
          pl.admin = ⟨a.id, a.username, a.email, a.role, a.isActive, a.createdAt, some now⟩ ∧
          0 < pl.tokens.accessToken.length ∧ 0 < pl.tokens.refreshToken.length))) := by
  have htru : (optTruthy (some em) && optTruthy (some pw)) = true := by
    simp [optTruthy, hem, hpw]
  constructor
  · intro hfind
    have hrep : jsFindReplace (fun a => a.email = em && a.isActive)
        (fun a => { a with lastLogin := some now }) s.admins = none :=
      jsFindReplace_eq_none.mpr (fun x hx => by
        have := List.find?_eq_none.mp hfind x hx
        simpa using this)
    simp only [V1.adminLogin, V2.adminLogin, Option.getD_some, htru, if_true, hfind, hrep]
    and_intros <;> first | rfl | trivial
  · intro a hfind
    obtain ⟨l1, l2, hdec, hl1, hpa, hrep⟩ :=
      jsFindReplace_of_find? (fun a2 => { a2 with lastLogin := some now }) hfind
    constructor
    · intro hne
      simp only [V1.adminLogin, V2.adminLogin, Option.getD_some, htru, if_true, hfind, hrep]
      rw [if_pos (by simpa using hne), if_pos (by simpa using hne)]
      and_intros <;> first | rfl | trivial
    · intro heq
      simp only [V1.adminLogin, V2.adminLogin, Option.getD_some, htru, if_true, hfind, hrep]
      rw [if_neg (by simp [heq]), if_neg (by simp [heq])]
      refine ⟨rfl, rfl, ⟨_, rfl, rfl, ?_, ?_⟩, rfl, rfl, ⟨_, rfl, rfl, ?_, ?_⟩⟩ <;>
      · rw [String.length_append, String.length_append, String.length_append]
        have hd : ("-" : String).length = 1 := rfl
        omega

/-- Claim C8, witness: logging in with the seeded admin credentials
succeeds, and a wrong password yields 401. -/
theorem claim_C8_witness :
    v1Init.admins.find? (fun a => a.email = "admin@elouarate.com" && a.isActive) =
      some { id := 1, username := "admin", email := "admin@elouarate.com",
             passwordHash := "Admin123!", isActive := true, role := "ADMIN", createdAt := 0 } ∧
    (V1.adminLogin ⟨some "admin@elouarate.com", some "Admin123!"⟩ 0 v1Init).status = 200 :=
  ⟨by decide,
   (((claim_C8 "admin@elouarate.com" "Admin123!" 0 v1Init (by decide) (by decide)).2
      { id := 1, username := "admin", email := "admin@elouarate.com",
        passwordHash := "Admin123!", isActive := true, role := "ADMIN", createdAt := 0 }
      (by decide)).2 (by decide)).1⟩

-- ===========================================================================
-- C5: response envelope structure and data/error exclusivity
-- ===========================================================================

theorem envConsistent_ok {α : Type} (d : Option α) (msg : String) (now : Nat) :
    envelopeConsistent (formatResponse true d msg none now) := by
  simp [envelopeConsistent, formatResponse]

theorem envConsistent_fail {α : Type} (msg : String) (e : Option ErrVal) (now : Nat) :
    envelopeConsistent (formatResponse false (none : Option α) msg e now) := by
  simp [envelopeConsistent, formatResponse]

/-- Claim C5.  Every envelope built by `formatResponse` carries the
success flag, the message and the server clock reading, with `data` and
`error` only conditionally present (`error` additionally subject to JS
truthiness); and every response produced by the modelled endpoints of
both variants is consistent: a success response never carries an error
code and a failure response never carries a `data` field, so the two are
never both populated. -/
theorem claim_C5 :
    (∀ (α : Type) (success : Bool) (data : Option α) (msg : String) (err : Option ErrVal) (now : Nat),
      (formatResponse success data msg err now).success = success ∧
      (formatResponse success data msg err now).message = msg ∧
      (formatResponse success data msg err now).timestamp = now ∧
      (formatResponse success data msg err now).data = data ∧
      (formatResponse success data msg err now).error = err.filter errTruthy) ∧
    (∀ now s, envelopeConsistent (V1.getCategories now s).body) ∧
    (∀ idStr now s, envelopeConsistent (V1.getCategory idStr now s).body) ∧
    (∀ b now s, envelopeConsistent (V1.createCategory b now s).1.body) ∧
    (∀ idStr b now s, envelopeConsistent (V1.updateCategory idStr b now s).1.body) ∧
    (∀ idStr now s, envelopeConsistent (V1.deleteCategory idStr now s).1.body) ∧
    (∀ q now s, envelopeConsistent (V1.getArtworks q now s).body) ∧
    (∀ idStr now s, envelopeConsistent (V1.getArtwork idStr now s).1.body) ∧
    (∀ b now s, envelopeConsistent (V1.createArtwork b now s).1.body) ∧
    (∀ b now s, envelopeConsistent (V1.adminLogin b now s).body) ∧
    (∀ now s, envelopeConsistent (V2.getCategories now s).body) ∧
    (∀ idStr now s, envelopeConsistent (V2.getCategory idStr now s).body) ∧
    (∀ b now s, envelopeConsistent (V2.createCategory b now s).1.body) ∧
    (∀ idStr b now s, envelopeConsistent (V2.updateCategory idStr b now s).1.body) ∧
    (∀ idStr now s, envelopeConsistent (V2.deleteCategory idStr now s).1.body) ∧
    (∀ q now s, envelopeConsistent (V2.getArtworks q now s).body) ∧
    (∀ idStr now s, envelopeConsistent (V2.getArtwork idStr now s).1.body) ∧
    (∀ b now yearNow s, envelopeConsistent (V2.createArtwork b now yearNow s).1.body) ∧
    (∀ idStr b now s, envelopeConsistent (V2.updateArtwork idStr b now s).1.body) ∧
    (∀ idStr now s, envelopeConsistent (V2.deleteArtwork idStr now s).1.body) ∧
    (∀ b now s, envelopeConsistent (V2.adminLogin b now s).1.body) := by
  refine ⟨fun α success d msg e now => ⟨rfl, rfl, rfl, rfl, rfl⟩,
    ?_, ?_, ?_, ?_, ?_, ?_, ?_, ?_, ?_, ?_, ?_, ?_, ?_, ?_, ?_, ?_, ?_, ?_, ?_, ?_⟩ <;>
  · intros
    first
      | exact envConsistent_ok _ _ _
      | exact envConsistent_fail _ _ _
      | (simp only [V1.getCategory, V1.createCategory, V1.updateCategory, V1.deleteCategory,
          V1.getArtwork, V1.createArtwork, V1.adminLogin,
          V2.getCategory, V2.createCategory, V2.updateCategory, V2.deleteCategory,
          V2.getArtwork, V2.createArtwork, V2.updateArtwork, V2.deleteArtwork, V2.adminLogin]
         repeat' split
         all_goals first
           | exact envConsistent_ok _ _ _
           | exact envConsistent_fail _ _ _)

/-- Claim C5, witness: the success listing response on the seed store
carries no error field. -/
theorem claim_C5_witness : (V1.getCategories 0 v1Init).body.error = none :=
  (claim_C5.2.1 0 v1Init).1 rfl

-- ===========================================================================
-- C3: pagination invariant of GET /api/artworks
-- ===========================================================================

/-- Claim C3.  For every `GET /api/artworks` request whose `limit` and
`offset` parse to integers `L > 0` and `O ≥ 0` (absent parameters default
to 50 and 0), letting `total` be the number of artworks passing the
`isActive`/category/status/featured/search filters: in both variants the
returned pagination satisfies `hasMore = (O + L < total)` and the number
of returned artworks is `min L (total − O)`, which is zero when
`O ≥ total`. -/
theorem claim_C3 (q : ArtworksQuery) (s : ServerState) (L O : Int) (now : Nat)
    (hL : parsedOr 50 q.limit = some L) (hO : parsedOr 0 q.offset = some O)
    (hLpos : 0 < L) (hOnn : 0 ≤ O) :
    (∃ pl, (V1.getArtworks q now s).body.data = some pl ∧
      pl.pagination.hasMore = decide (O + L < ((V1.filterArtworks q s).length : Int)) ∧
      pl.artworks.length = min L.toNat ((V1.filterArtworks q s).length - O.toNat)) ∧
    (∃ pl, (V2.getArtworks q now s).body.data = some pl ∧
      pl.pagination.hasMore = decide (O + L < ((V2.filterArtworks q s).length : Int)) ∧
      pl.artworks.length = min L.toNat ((V2.filterArtworks q s).length - O.toNat)) := by
  constructor
  · refine ⟨_, rfl, ?_, ?_⟩
    · simp only [V1.getArtworks, hL, hO, jsAddNum, jsLtNum]
    · simp only [V1.getArtworks, hL, hO, jsAddNum, toIntOrZero]
      exact jsSlice_length _ O L hOnn (le_of_lt hLpos)
  · refine ⟨_, rfl, ?_, ?_⟩
    · simp only [V2.getArtworks, hL, hO, jsAddNum, jsLtNum, sortArtworks_length]
    · simp only [V2.getArtworks, hL, hO, jsAddNum, toIntOrZero, List.length_map]
      rw [jsSlice_length _ O L hOnn (le_of_lt hLpos), sortArtworks_length]

/-- Claim C3, witness: `limit=1`, `offset=1` on the variant-1 seed store
(2 active AVAILABLE artworks): one artwork returned, `hasMore = false`. -/
theorem claim_C3_witness :
    parsedOr 50 (some "1") = some 1 ∧ parsedOr 0 (some "1") = some 1 ∧
    (∃ pl, (V1.getArtworks { limit := some "1", offset := some "1" } 0 v1Init).body.data = some pl ∧
      pl.pagination.hasMore = decide ((1 : Int) + 1 <
        ((V1.filterArtworks { limit := some "1", offset := some "1" } v1Init).length : Int)) ∧
      pl.artworks.length = min (1 : Int).toNat
        ((V1.filterArtworks { limit := some "1", offset := some "1" } v1Init).length -
          (1 : Int).toNat)) :=
  ⟨by decide, by decide,
   (claim_C3 { limit := some "1", offset := some "1" } v1Init 1 1 0
      (by decide) (by decide) (by decide) (by decide)).1⟩

-- ===========================================================================
-- C6: read-after-write freshness of the category listing
-- ===========================================================================

/-- Claim C6.  The cited mock variant keeps no cache at all: every
`GET /api/categories` recomputes the listing from the live `categories`
array, so no stale read is possible.  Concretely: a category successfully
created (201) is active and appears in the next unfiltered listing; a
successful update stores the merged record, which appears in the next
listing with its new field values whenever it is active; a successful
delete removes the spliced record, and (when ids are distinct, as in
every reachable store) no category with the deleted id remains in the
next listing. -/
theorem claim_C6 :
    (∀ (b : CategoryBody) (now now2 : Nat) (s : ServerState),
      (V1.createCategory b now s).1.status = 201 →
      ∃ nc, (V1.createCategory b now s).1.body.data = some ⟨nc⟩ ∧ nc.isActive = true ∧
        (V1.createCategory b now s).2.categories = s.categories ++ [nc] ∧
        ∃ pl, (V1.getCategories now2 (V1.createCategory b now s).2).body.data = some pl ∧
          nc ∈ pl.categories) ∧
    (∀ (idStr : String) (b : UpdateCategoryBody) (now now2 : Nat) (s : ServerState) res,
      V1.validateCategoryUpdate b = [] →
      jsFindReplace (fun c => idEq c.id (jsParseInt idStr)) (fun old => V1.mergeCategory old b now)
        s.categories = some res →
      (V1.updateCategory idStr b now s).1.body.data = some ⟨res.2⟩ ∧
      (V1.updateCategory idStr b now s).2.categories = res.1 ∧
      (res.2.isActive = true →
        ∃ pl, (V1.getCategories now2 (V1.updateCategory idStr b now s).2).body.data = some pl ∧
          res.2 ∈ pl.categories)) ∧
    (∀ (idStr : String) (now now2 : Nat) (s : ServerState) res (pid : Int),
      jsParseInt idStr = some pid →
      jsFindRemove (fun c => idEq c.id (jsParseInt idStr)) s.categories = some res →
      (s.categories.map (fun c => c.id)).Nodup →
      (V1.deleteCategory idStr now s).2.categories = res.1 ∧
      ∃ pl, (V1.getCategories now2 (V1.deleteCategory idStr now s).2).body.data = some pl ∧
        ∀ c ∈ pl.categories, c.id ≠ pid) := by
  refine ⟨?_, ?_, ?_⟩
  · intro b now now2 s h201
    simp only [V1.createCategory] at h201 ⊢
    by_cases hv : (V1.validateCategoryCreate b).isEmpty = true
    · rw [if_pos hv] at h201 ⊢
      by_cases hdup : (s.categories.find?
          (fun c => jsToLower c.name = jsToLower (jsTrim (b.name.getD "")))).isSome = true
      · rw [if_pos hdup] at h201
        simp at h201
      · rw [if_neg hdup] at h201 ⊢
        refine ⟨_, rfl, rfl, rfl, _, rfl, ?_⟩
        simp [V1.getCategories, mem_sortByOrder, List.mem_filter]
    · rw [if_neg hv] at h201
      simp at h201
  · intro idStr b now now2 s res hval hrep
    have hv : (V1.validateCategoryUpdate b).isEmpty = true := by simp [hval]
    simp only [V1.updateCategory, hrep]
    rw [if_pos hv]
    refine ⟨rfl, rfl, ?_⟩
    intro hact
    obtain ⟨l1, x, l2, hdec, hl1, hx, h1, h2⟩ := jsFindReplace_some hrep
    refine ⟨_, rfl, ?_⟩
    simp only [V1.getCategories, mem_sortByOrder, List.mem_filter]
    exact ⟨by rw [h1, ← h2]; simp, hact⟩
  · intro idStr now now2 s res pid hpid hrem hnd
    obtain ⟨l1, l2, hdec, hl1, hx, h1⟩ := jsFindRemove_some hrem
    simp only [V1.deleteCategory, hrem]
    refine ⟨by first | rfl | trivial, _, rfl, ?_⟩
    intro c hc hceq
    have hc2 : c ∈ res.1 := (List.mem_filter.mp (mem_sortByOrder.mp hc)).1
    rw [h1] at hc2
    have hxid : res.2.id = pid := by
      rw [hpid] at hx
      simpa [idEq] using (Bool.decide_iff _).mp hx
    rcases List.mem_append.mp hc2 with hcl | hcr
    · have := hl1 c hcl
      rw [hpid] at this
      simp [idEq, hceq] at this
    · rw [hdec, List.map_append, List.map_cons] at hnd
      have hnd2 := hnd.of_append_right
      have hnotin := (List.nodup_cons.mp hnd2).1
      exact hnotin (by
        rw [← hxid] at hceq
        exact hceq ▸ List.mem_map_of_mem (fun c => c.id) hcr)

/-- Claim C6, witness: creating "Prints" on the seed store makes it
appear in the next listing. -/
theorem claim_C6_witness :
    (V1.createCategory { name := some "Prints" } 0 v1Init).1.status = 201 ∧
    ∃ nc, (V1.createCategory { name := some "Prints" } 0 v1Init).1.body.data = some ⟨nc⟩ ∧
      nc.isActive = true ∧
      (V1.createCategory { name := some "Prints" } 0 v1Init).2.categories =
        v1Init.categories ++ [nc] ∧
      ∃ pl, (V1.getCategories 1 (V1.createCategory { name := some "Prints" } 0 v1Init).2).body.data =
          some pl ∧ nc ∈ pl.categories :=
  ⟨by decide, claim_C6.1 { name := some "Prints" } 0 1 v1Init (by decide)⟩

-- ===========================================================================
-- C7: round-trip of POST /api/artworks followed by GET /api/artworks/:id
-- ===========================================================================

theorem le_foldl_max (x : Int) (xs : List Int) :
    ∀ i, (i = x ∨ i ∈ xs) → i ≤ xs.foldl max x := by
  induction xs generalizing x with
  | nil =>
    rintro i (rfl | h)
    · simp
    · simp at h
  | cons y ys ih =>
    rintro i (rfl | h)
    · exact le_trans (le_max_left i y) (ih (max i y) _ (Or.inl rfl))
    · rcases List.mem_cons.mp h with rfl | h2
      · exact le_trans (le_max_right x i) (ih (max x i) _ (Or.inl rfl))
      · exact ih (max x y) i (Or.inr h2)

theorem v1NextId_fresh {ids : List Int} (h : ids ≠ []) : ∀ i ∈ ids, i < v1NextId ids := by
  match ids, h with
  | x :: xs, _ =>
    intro i hi
    have hle : i ≤ xs.foldl max x :=
      le_foldl_max x xs i (by rcases List.mem_cons.mp hi with rfl | h2 <;> [exact Or.inl rfl; exact Or.inr h2])
    simp only [v1NextId]
    omega

theorem v2NextId_fresh (ids : List Int) : ∀ i ∈ ids, i < v2NextId ids := by
  intro i hi
  have hle : i ≤ ids.foldl max 0 := le_foldl_max 0 ids i (Or.inr hi)
  simp only [v2NextId]
  omega

/-- Claim C7.  An artwork created via `POST /api/artworks` with a valid
body, a price `p`, no explicit status, and a `categoryId` referencing an
existing category is stored with a fresh server-assigned id, `createdAt`,
default status `AVAILABLE` and `viewCount` 0, and a subsequent
`GET /api/artworks/:id` with the server-returned id succeeds and returns
the same name, price and `categoryId` (with the view count incremented
to 1).  For variant 1 the theorem assumes a nonempty artworks store — an
invariant of that variant, whose seed store is nonempty and which has no
artwork delete route (on an empty store JavaScript's `Math.max()` would
produce a non-finite id); variant 2's id generation is total, and its
category check additionally requires the category to be active. -/
theorem claim_C7 :
    (∀ (b : ArtworkBody) (now now2 : Nat) (s : ServerState) (cat : Category)
      (p : Rat) (idStr : String),
      s.artworks ≠ [] →
      V1.validateArtworkCreate b = [] →
      s.categories.find? (fun c => b.categoryId = some c.id) = some cat →
      b.status = none →
      b.price = some p →
      (V1.createArtwork b now s).1.status = 201 ∧
      ∃ na, (V1.createArtwork b now s).1.body.data = some ⟨na⟩ ∧
        na.name = jsTrim (b.name.getD "") ∧ na.price = p ∧ na.categoryId = cat.id ∧
        na.status = "AVAILABLE" ∧ na.createdAt = now ∧ na.viewCount = 0 ∧
        (V1.createArtwork b now s).2.artworks = s.artworks ++ [na] ∧
        (jsParseInt idStr = some na.id →
          (V1.getArtwork idStr now2 (V1.createArtwork b now s).2).1.status = 200 ∧
          ∃ ra, (V1.getArtwork idStr now2 (V1.createArtwork b now s).2).1.body.data =
              some ⟨ra⟩ ∧
            ra.name = na.name ∧ ra.price = na.price ∧ ra.categoryId = na.categoryId ∧
            ra.createdAt = na.createdAt ∧ ra.viewCount = 1)) ∧
    (∀ (b : ArtworkBody) (now now2 : Nat) (yearNow : Int) (s : ServerState) (cat : Category)
      (p : Rat) (idStr : String),
      optTruthy b.name = true → optTruthy b.description = true →
      ratTruthy b.price = true → intTruthy b.categoryId = true →
      s.categories.find? (fun c => b.categoryId = some c.id && c.isActive) = some cat →
      b.status = none →
      b.price = some p →
      (V2.createArtwork b now yearNow s).1.status = 201 ∧
      ∃ na, (V2.createArtwork b now yearNow s).1.body.data = some ⟨na⟩ ∧
        na.name = b.name.getD "" ∧ na.price = p ∧ na.categoryId = cat.id ∧
        na.status = "AVAILABLE" ∧ na.createdAt = now ∧ na.viewCount = 0 ∧
        (V2.createArtwork b now yearNow s).2.artworks = s.artworks ++ [na] ∧
        (jsParseInt idStr = some na.id →
          (V2.getArtwork idStr now2 (V2.createArtwork b now yearNow s).2).1.status = 200 ∧
          ∃ ra, (V2.getArtwork idStr now2 (V2.createArtwork b now yearNow s).2).1.body.data =
              some ⟨⟨ra, (V2.createArtwork b now yearNow s).2.categories.find?
                (fun c => c.id = ra.categoryId)⟩⟩ ∧
            ra.name = na.name ∧ ra.price = na.price ∧ ra.categoryId = na.categoryId ∧
            ra.createdAt = na.createdAt ∧ ra.viewCount = 1)) := by
  constructor
  · intro b now now2 s cat p idStr hne hval hcat hst hp
    have hv : (V1.validateArtworkCreate b).isEmpty = true := by simp [hval]
    have hbc : b.categoryId = some cat.id := by
      have := List.find?_some hcat
      simpa using this
    simp only [V1.createArtwork, hcat]
    rw [if_pos hv]
    refine ⟨rfl, _, rfl, rfl, by simp [hp], by simp [hbc], by simp [hst, jsOrStr], rfl, rfl,
      rfl, ?_⟩
    intro hpid
    have hfresh : ∀ a ∈ s.artworks,
        (idEq a.id (jsParseInt idStr) && a.isActive) = false := by
      intro a ha
      rw [hpid]
      have hlt : a.id < v1NextId (s.artworks.map (fun a2 => a2.id)) :=
        v1NextId_fresh (by simpa using hne) a.id (List.mem_map_of_mem _ ha)
      simp only [idEq, Bool.and_eq_false_iff]
      left
      simpa using (by omega : ¬ a.id = v1NextId (s.artworks.map (fun a2 => a2.id)))
    have hx : (idEq
        (v1NextId (s.artworks.map (fun a2 => a2.id))) (jsParseInt idStr) && true) = true := by
      rw [hpid]
      simp [idEq]
    simp only [V1.getArtwork]
    rw [jsFindReplace_append_last bumpView hfresh hx]
    exact ⟨rfl, _, rfl, rfl, rfl, rfl, rfl, rfl⟩
  · intro b now now2 yearNow s cat p idStr hn hd hpr hcid hcat hst hp
    have htru : (optTruthy b.name && optTruthy b.description && ratTruthy b.price &&
        intTruthy b.categoryId) = true := by
      simp [hn, hd, hpr, hcid]
    have hbc : b.categoryId = some cat.id := by
      have := List.find?_some hcat
      simp only [Bool.and_eq_true, decide_eq_true_eq] at this
      exact this.1
    simp only [V2.createArtwork, hcat]
    rw [if_pos htru]
    refine ⟨rfl, _, rfl, rfl, by simp [hp], by simp [hbc], by simp [hst, jsOrStr], rfl, rfl,
      rfl, ?_⟩
    intro hpid
    have hfresh : ∀ a ∈ s.artworks,
        (idEq a.id (jsParseInt idStr) && a.isActive) = false := by
      intro a ha
      rw [hpid]
      have hlt : a.id < v2NextId (s.artworks.map (fun a2 => a2.id)) :=
        v2NextId_fresh _ a.id (List.mem_map_of_mem _ ha)
      simp only [idEq, Bool.and_eq_false_iff]
      left
      simpa using (by omega : ¬ a.id = v2NextId (s.artworks.map (fun a2 => a2.id)))
    have hx : (idEq
        (v2NextId (s.artworks.map (fun a2 => a2.id))) (jsParseInt idStr) && true) = true := by
      rw [hpid]
      simp [idEq]
    simp only [V2.getArtwork]
    rw [jsFindReplace_append_last bumpView hfresh hx]
    exact ⟨rfl, _, rfl, rfl, rfl, rfl, rfl, rfl⟩

/-- Claim C7, witness: creating `{name:"X", price:100, categoryId:2}` on
the seed store succeeds with 201. -/
theorem claim_C7_witness :
    (V1.createArtwork { name := some "X", description := some "d", price := some 100,
                        categoryId := some 2 } 9 v1Init).1.status = 201 :=
  (claim_C7.1 { name := some "X", description := some "d", price := some 100,
                categoryId := some 2 }
    9 10 v1Init
    { id := 2, name := "Sculptures", description := "Three-dimensional art pieces",
      color := "#4ECDC4", isActive := true, sortOrder := 2, createdAt := 0 }
    100 "3" (by decide) (by decide) (by decide) (by decide) (by decide)).1

-- ===========================================================================
-- C4: view-count increments
-- ===========================================================================

theorem jsFindReplace_forall₂ {α : Type} {p : α → Bool} {f : α → α} {l : List α}
    {res : List α × α} (h : jsFindReplace p f l = some res) :
    List.Forall₂ (fun a b => b = a ∨ b = f a) l res.1 := by
  induction l generalizing res with
  | nil => simp [jsFindReplace] at h
  | cons y ys ih =>
    by_cases hy : p y
    · rw [jsFindReplace, if_pos hy] at h
      obtain rfl := Option.some_inj.mp h
      exact List.Forall₂.cons (Or.inr rfl) (List.forall₂_same.mpr (fun x _ => Or.inl rfl))
    · rw [jsFindReplace, if_neg hy] at h
      cases hr : jsFindReplace p f ys with
      | none => rw [hr] at h; simp at h
      | some r =>
        rw [hr] at h
        simp only [Option.map_some', Option.some_inj] at h
        subst h
        exact List.Forall₂.cons (Or.inl rfl) (ih hr)

theorem forall₂_trans_of {α : Type} {R : α → α → Prop}
    (hR : ∀ a b c, R a b → R b c → R a c) :
    ∀ {l1 l2 l3 : List α}, List.Forall₂ R l1 l2 → List.Forall₂ R l2 l3 →
      List.Forall₂ R l1 l3 := by
  intro l1 l2 l3 h12
  induction h12 generalizing l3 with
  | nil =>
    intro h
    cases h
    exact List.Forall₂.nil
  | cons hab h ih =>
    intro h23
    cases h23 with
    | cons hbc h2 => exact List.Forall₂.cons (hR _ _ _ hab hbc) (ih h2)

theorem getArtwork_viewStep (idStr : String) (now : Nat) (s : ServerState) :
    List.Forall₂ (fun a b => b = a ∨ b = bumpView a) s.artworks
      ((V1.getArtwork idStr now s).2.artworks) ∧
    List.Forall₂ (fun a b => b = a ∨ b = bumpView a) s.artworks
      ((V2.getArtwork idStr now s).2.artworks) := by
  cases h : jsFindReplace (fun a => idEq a.id (jsParseInt idStr) && a.isActive) bumpView
      s.artworks with
  | none =>
    simp only [V1.getArtwork, V2.getArtwork, h]
    exact ⟨List.forall₂_same.mpr (fun x _ => Or.inl rfl),
           List.forall₂_same.mpr (fun x _ => Or.inl rfl)⟩
  | some res =>
    simp only [V1.getArtwork, V2.getArtwork, h]
    exact ⟨jsFindReplace_forall₂ h, jsFindReplace_forall₂ h⟩

theorem viewStep_mono {s t : List Artwork}
    (h : List.Forall₂ (fun a b => b = a ∨ b = bumpView a) s t) :
    List.Forall₂ (fun a b => b.id = a.id ∧ a.viewCount ≤ b.viewCount) s t := by
  refine h.imp (fun a b hab => ?_)
  rcases hab with rfl | rfl
  · exact ⟨rfl, le_refl _⟩
  · exact ⟨rfl, by simp [bumpView]⟩

theorem runGets_mono (ids : List String) (now : Nat) :
    ∀ s : ServerState,
      List.Forall₂ (fun a b => b.id = a.id ∧ a.viewCount ≤ b.viewCount) s.artworks
        (V1.runGets ids now s).artworks ∧
      List.Forall₂ (fun a b => b.id = a.id ∧ a.viewCount ≤ b.viewCount) s.artworks
        (V2.runGets ids now s).artworks := by
  have hR : ∀ a b c : Artwork, (b.id = a.id ∧ a.viewCount ≤ b.viewCount) →
      (c.id = b.id ∧ b.viewCount ≤ c.viewCount) → c.id = a.id ∧ a.viewCount ≤ c.viewCount :=
    fun a b c h1 h2 => ⟨h2.1.trans h1.1, h1.2.trans h2.2⟩
  induction ids with
  | nil =>
    intro s
    exact ⟨List.forall₂_same.mpr (fun x _ => ⟨rfl, le_refl _⟩),
           List.forall₂_same.mpr (fun x _ => ⟨rfl, le_refl _⟩)⟩
  | cons i is ih =>
    intro s
    constructor
    · exact forall₂_trans_of hR (viewStep_mono (getArtwork_viewStep i now s).1)
        (ih ((V1.getArtwork i now s).2)).1
    · exact forall₂_trans_of hR (viewStep_mono (getArtwork_viewStep i now s).2)
        (ih ((V2.getArtwork i now s).2)).2

/-- Claim C4.  A `GET /api/artworks/:id` that finds a present, active
artwork increments exactly that (first matching) artwork's stored
`viewCount` by exactly 1 in both variants, touching nothing else; a GET
returning 404 changes no state; over any sequence of GET detail requests
every stored artwork's `viewCount` is non-decreasing, stepping by exactly
the single increments above (no skips); and no other artwork endpoint
ever writes a `viewCount`: variant 2's update preserves every stored
count pointwise, its delete only removes records, and its create only
appends (variant 1 has no artwork update or delete route). -/
theorem claim_C4 :
    (∀ (idStr : String) (now : Nat) (s : ServerState) res,
      jsFindReplace (fun a => idEq a.id (jsParseInt idStr) && a.isActive) bumpView
        s.artworks = some res →
      (V1.getArtwork idStr now s).2.artworks = res.1 ∧
      (V1.getArtwork idStr now s).2.categories = s.categories ∧
      (V2.getArtwork idStr now s).2.artworks = res.1 ∧
      (V2.getArtwork idStr now s).2.categories = s.categories ∧
      (V1.getArtwork idStr now s).1.status = 200 ∧
      (V2.getArtwork idStr now s).1.status = 200 ∧
      ∃ l1 a l2, s.artworks = l1 ++ a :: l2 ∧
        res.1 = l1 ++ { a with viewCount := a.viewCount + 1 } :: l2 ∧
        (∀ b ∈ l1, (idEq b.id (jsParseInt idStr) && b.isActive) = false) ∧
        (idEq a.id (jsParseInt idStr) && a.isActive) = true) ∧
    (∀ (idStr : String) (now : Nat) (s : ServerState),
      jsFindReplace (fun a => idEq a.id (jsParseInt idStr) && a.isActive) bumpView
        s.artworks = none →
      (V1.getArtwork idStr now s).2 = s ∧ (V1.getArtwork idStr now s).1.status = 404 ∧
      (V2.getArtwork idStr now s).2 = s ∧ (V2.getArtwork idStr now s).1.status = 404) ∧
    (∀ (ids : List String) (now : Nat) (s : ServerState),
      List.Forall₂ (fun a b => b.id = a.id ∧ a.viewCount ≤ b.viewCount)
        s.artworks (V1.runGets ids now s).artworks) ∧
    (∀ (ids : List String) (now : Nat) (s : ServerState),
      List.Forall₂ (fun a b => b.id = a.id ∧ a.viewCount ≤ b.viewCount)
        s.artworks (V2.runGets ids now s).artworks) ∧
    (∀ (idStr : String) (b : ArtworkBody) (now : Nat) (s : ServerState),
      List.Forall₂ (fun a a2 => a2.id = a.id ∧ a2.viewCount = a.viewCount)
        s.artworks (V2.updateArtwork idStr b now s).2.artworks) ∧
    (∀ (idStr : String) (now : Nat) (s : ServerState),
      ∀ a ∈ (V2.deleteArtwork idStr now s).2.artworks, a ∈ s.artworks) ∧
    (∀ (b : ArtworkBody) (now : Nat) (yearNow : Int) (s : ServerState),
      s.artworks <+: (V2.createArtwork b now yearNow s).2.artworks) := by
  refine ⟨?_, ?_, fun ids now s => (runGets_mono ids now s).1,
    fun ids now s => (runGets_mono ids now s).2, ?_, ?_, ?_⟩
  · intro idStr now s res h
    obtain ⟨l1, a, l2, hdec, hl1, ha, h1, _⟩ := jsFindReplace_some h
    simp only [V1.getArtwork, V2.getArtwork, h]
    refine ⟨?_, ?_, ?_, ?_, ?_, ?_, l1, a, l2, hdec, h1, hl1, ha⟩ <;> first | rfl | trivial
  · intro idStr now s h
    simp only [V1.getArtwork, V2.getArtwork, h]
    and_intros <;> first | rfl | trivial
  · intro idStr b now s
    cases h : jsFindReplace (fun a => idEq a.id (jsParseInt idStr))
        (fun old => V2.mergeArtwork old b now) s.artworks with
    | none =>
      simp only [V2.updateArtwork, h]
      exact List.forall₂_same.mpr (fun x _ => ⟨rfl, rfl⟩)
    | some res =>
      simp only [V2.updateArtwork, h]
      split
      · exact List.forall₂_same.mpr (fun x _ => ⟨rfl, rfl⟩)
      · refine (jsFindReplace_forall₂ h).imp (fun a a2 hab => ?_)
        rcases hab with rfl | rfl
        · exact ⟨rfl, rfl⟩
        · exact ⟨rfl, rfl⟩
  · intro idStr now s
    cases h : jsFindRemove (fun a => idEq a.id (jsParseInt idStr)) s.artworks with
    | none =>
      simp only [V2.deleteArtwork, h]
      exact fun a ha => ha
    | some res =>
      obtain ⟨l1, l2, hdec, _, _, h1⟩ := jsFindRemove_some h
      simp only [V2.deleteArtwork, h]
      intro a ha
      rw [h1] at ha
      rw [hdec]
      rcases List.mem_append.mp ha with h2 | h2
      · exact List.mem_append.mpr (Or.inl h2)
      · exact List.mem_append.mpr (Or.inr (List.mem_cons_of_mem _ h2))
  · intro b now yearNow s
    simp only [V2.createArtwork]
    split
    · cases hf : s.categories.find? (fun c => b.categoryId = some c.id && c.isActive) with
      | none => simp only [hf]; exact List.prefix_refl _
      | some c => simp only [hf]; exact List.prefix_append _ _
    · exact List.prefix_refl _

/-- Claim C4, witness: fetching artwork 1 on the seed store succeeds
(and, per the theorem, bumps exactly its view count by one). -/
theorem claim_C4_witness :
    jsFindReplace (fun a => idEq a.id (jsParseInt "1") && a.isActive) bumpView v1Init.artworks =
      some ((V1.getArtwork "1" 0 v1Init).2.artworks,
        ((V1.getArtwork "1" 0 v1Init).1.body.data.getD
          ⟨{ id := 0, name := "", description := "", price := 0, status := "", isActive := false,
             isFeatured := false, categoryId := 0, viewCount := 0, createdAt := 0 }⟩).artwork) ∧
    (V1.getArtwork "1" 0 v1Init).1.status = 200 :=
  ⟨by decide,
   (claim_C4.1 "1" 0 v1Init
     ((V1.getArtwork "1" 0 v1Init).2.artworks,
      ((V1.getArtwork "1" 0 v1Init).1.body.data.getD
        ⟨{ id := 0, name := "", description := "", price := 0, status := "", isActive := false,
           isFeatured := false, categoryId := 0, viewCount := 0, createdAt := 0 }⟩).artwork)
     (by decide)).2.2.2.2.1⟩
